import Mathlib

/-!
Shallow embedding of the versioned data-migration engine of this repository
(`scripts/components/buttons/settings/migration_button.py`,
`scripts/Utils/models/*.py`) and proofs about the claims of its
specification.

Modelling conventions:
* SQLite cell values are dynamically typed (`DbValue`); a source row is the
  positional tuple `cursor.fetchall()` yields (`DbRow`).
* A missing legacy file makes `_get_connection` raise `DatabaseError`; a
  missing table makes `SELECT` raise `sqlite3.OperationalError`; indexing a
  row past its end raises `IndexError`; an exhausted `next()` raises
  `StopIteration`.  These are the constructors of `MigErr`.
* The destination store (peewee models over `whiteout.db`) is an explicit
  record of lists, one per table (`DState`), carrying the data columns the
  migrators write — including the `sent_at`/`created_at` values the
  v4-specific migrators fill with `datetime.now()` when the source lacks
  them.  The `updated_at` bookkeeping column that the overridden
  `BaseModel.save` stamps with `datetime.now()` on every write is modelled
  by the `Timed` row layer where a claim depends on it (the rollback
  restore and the idempotence of repeated upserts); `created_at` is set at
  insert and never modified afterwards — updates leave it alone and
  `_rollback` re-creates it verbatim from the snapshot record — so it never
  distinguishes the states any claim compares.
* `datetime.now()` is modelled by a logical run time `now : Nat`.
* `datetime.strptime(cell, '%Y-%m-%d %H:%M:%S')` is fallible: it raises
  `ValueError` on a malformed string and `TypeError` on a non-string
  (`strptime`, with `validTimeFormat` approximating CPython's acceptance).
* `db.atomic()` is modelled by discarding the working state when an
  exception escapes the block (peewee rolls the transaction back), so loop
  writes that happened before an uncaught error are never observable and the
  embedding may compute each family's transformed rows first and apply the
  upserts afterwards.  The v4-specific families catch their own exceptions,
  so there the rows written before the error survive and are modelled as the
  prefix before the first failing row.
-/

/-- Dynamically typed SQLite cell value as the Python code sees it:
an integer, a string, or NULL (`None`). -/
inductive DbValue
  | int : Int → DbValue
  | text : String → DbValue
  | null : DbValue
deriving DecidableEq, Repr

/-- Python truthiness of a cell value (used by `if len(notif) > 3 and notif[3]`):
`None`, `0` and the empty string are falsy. -/
def DbValue.truthy : DbValue → Bool
  | .null => false
  | .int i => i != 0
  | .text s => s != ""

/-- Python `str()` of a cell value, as used for `str(user_data['fid'])`. -/
def DbValue.pyStr : DbValue → String
  | .null => "None"
  | .int i => toString i
  | .text s => s

/-- Python `isinstance(v, int)`. -/
def DbValue.isInt : DbValue → Bool
  | .int _ => true
  | _ => false

/-- Python `isinstance(v, str)`. -/
def DbValue.isText : DbValue → Bool
  | .text _ => true
  | _ => false

/-- One positional source row, exactly as `cursor.fetchall()` yields it. -/
abbrev DbRow := List DbValue

/-- Model of the `datetime` values stored by the v4-specific migrators:
either the result of a successful `datetime.strptime` on a source cell
(kept abstract as the cell itself) or `datetime.now()` at the run's logical
time. -/
inductive DTime
  | parsed : DbValue → DTime
  | now : Nat → DTime
deriving DecidableEq, Repr

/-- The exceptions the migration code can raise: `DatabaseError` (custom),
`sqlite3.OperationalError` (missing table), `IndexError` (row too short),
`StopIteration` (exhausted `next()`), and `ValueError`/`TypeError` from
`datetime.strptime`. -/
inductive MigErr
  | db : String → MigErr
  | op : String → MigErr
  | indexErr : MigErr
  | stopIteration : MigErr
  | valueError : String → MigErr
  | typeError : String → MigErr
deriving DecidableEq, Repr

/-- Python `str(e)` for each modelled exception. -/
def MigErr.msg : MigErr → String
  | .db s => s
  | .op s => s
  | .indexErr => "tuple index out of range"
  | .stopIteration => ""
  | .valueError s => s
  | .typeError s => s

/-- Unguarded Python indexing `row[i]`: raises `IndexError` past the end. -/
def idx (r : DbRow) (i : Nat) : Except MigErr DbValue :=
  match r.get? i with
  | some v => .ok v
  | none => .error .indexErr

/-- Guarded access `row[i] if len(row) > i else None`. -/
def idxOpt (r : DbRow) (i : Nat) : DbValue :=
  (r.get? i).getD .null

/-- Acceptance of `datetime.strptime(s, '%Y-%m-%d %H:%M:%S')`, approximated
with fixed-width fields: four year digits, two digits for each other field,
the literal separators, and CPython's field ranges (month 1-12, day 1-31,
hour at most 23, minute at most 59, second at most 61).  No claim turns on
the exact acceptance boundary: theorems take parseability or absence of the
cell as a hypothesis, and counterexamples use absent or falsy cells. -/
def validTimeFormat (s : String) : Bool :=
  match s.toList with
  | [y1, y2, y3, y4, s1, mo1, mo2, s2, d1, d2, s3, h1, h2, s4, mi1, mi2, s5, se1, se2] =>
    y1.isDigit && y2.isDigit && y3.isDigit && y4.isDigit && s1 == '-'
      && mo1.isDigit && mo2.isDigit && s2 == '-' && d1.isDigit && d2.isDigit
      && s3 == ' ' && h1.isDigit && h2.isDigit && s4 == ':'
      && mi1.isDigit && mi2.isDigit && s5 == ':' && se1.isDigit && se2.isDigit
      && decide (1 ≤ (mo1.toNat - 48) * 10 + (mo2.toNat - 48))
      && decide ((mo1.toNat - 48) * 10 + (mo2.toNat - 48) ≤ 12)
      && decide (1 ≤ (d1.toNat - 48) * 10 + (d2.toNat - 48))
      && decide ((d1.toNat - 48) * 10 + (d2.toNat - 48) ≤ 31)
      && decide ((h1.toNat - 48) * 10 + (h2.toNat - 48) ≤ 23)
      && decide ((mi1.toNat - 48) * 10 + (mi2.toNat - 48) ≤ 59)
      && decide ((se1.toNat - 48) * 10 + (se2.toNat - 48) ≤ 61)
  | _ => false

/-- Whether `datetime.strptime(cell, '%Y-%m-%d %H:%M:%S')` succeeds on a
cell: it must be a string in the accepted format. -/
def strptimeOk : DbValue → Bool
  | .text s => validTimeFormat s
  | _ => false

/-- The fallible `datetime.strptime(cell, '%Y-%m-%d %H:%M:%S')`: a malformed
string raises `ValueError` and a non-string raises `TypeError`; both abort
the surrounding loop in the source. -/
def strptime (v : DbValue) : Except MigErr DTime :=
  match v with
  | .text s =>
    if validTimeFormat s then .ok (.parsed (.text s))
    else .error (.valueError
      ("time data '" ++ s ++ "' does not match format '%Y-%m-%d %H:%M:%S'"))
  | .int _ => .error (.typeError "strptime() argument 1 must be str, not int")
  | .null => .error (.typeError "strptime() argument 1 must be str, not NoneType")

/-- Entries of the migration log file (`MigrationLogger`), modelled only for
the calls the v4 users loop makes: the validation warning emitted by
`_validate_data` and the per-record success/failure lines of
`record_processed`. -/
inductive LogEntry
  | warning : String → LogEntry
  | recordOk : String → LogEntry
  | recordFail : String → LogEntry
deriving DecidableEq, Repr

/-! ## Destination rows

One structure per destination table, holding exactly the data columns the
migrators write (see the modelling conventions above for the bookkeeping
columns). -/

/-- Destination `users` row (`User` model). -/
structure UserRow where
  fid : DbValue
  nickname : DbValue
  furnace_lv : DbValue
  kid : DbValue
  stove_lv_content : DbValue
  alliance : DbValue
deriving DecidableEq, Repr

/-- Destination `alliance_list` row (`Alliance` model). -/
structure AllianceRow where
  alliance_id : DbValue
  name : DbValue
  discord_server_id : DbValue
deriving DecidableEq, Repr

/-- Destination `alliancesettings` row (`AllianceSettings` model). -/
structure AllianceSettingsRow where
  alliance_id : DbValue
  channel_id : DbValue
  interval : DbValue
deriving DecidableEq, Repr

/-- Destination `gift_codes` row (`GiftCode` model). -/
structure GiftCodeRow where
  giftcode : DbValue
  date : DbValue
  validation_status : DbValue
deriving DecidableEq, Repr

/-- Destination `user_giftcodes` row (`UserGiftCode` model). -/
structure UserGiftCodeRow where
  fid : DbValue
  giftcode : DbValue
  status : DbValue
deriving DecidableEq, Repr

/-- Destination `giftcode_channel` row (`GiftCodeChannel` model); the
`last_message_id` argument passed by the migrator is kept in the row. -/
structure GiftCodeChannelRow where
  channel_id : DbValue
  alliance_id : DbValue
  last_message_id : DbValue
deriving DecidableEq, Repr

/-- Destination `furnace_changes` row (`FurnaceChange` model). -/
structure FurnaceChangeRow where
  id : DbValue
  fid : DbValue
  old_furnace_lv : DbValue
  new_furnace_lv : DbValue
  change_date : DbValue
deriving DecidableEq, Repr

/-- Destination `nickname_changes` row (`NicknameChange` model). -/
structure NicknameChangeRow where
  id : DbValue
  fid : DbValue
  old_nickname : DbValue
  new_nickname : DbValue
  change_date : DbValue
deriving DecidableEq, Repr

/-- Destination `botsettings` row (`BotSettings` model). -/
structure BotSettingsRow where
  id : DbValue
  channelid : DbValue
deriving DecidableEq, Repr

/-- Destination `admin` row (`Admin` model). -/
structure AdminRow where
  id : DbValue
  is_initial : DbValue
deriving DecidableEq, Repr

/-- Destination `bear_notifications` row (`BearNotification` model). -/
structure BearNotificationRow where
  notification_id : DbValue
  notification_time : DbValue
  sent_at : DTime
deriving DecidableEq, Repr

/-- Destination `bear_notification_embeds` row (`BearNotificationEmbed`
model); the foreign key stores the parent's business `notification_id`
(`ForeignKeyField(..., field='notification_id')`). -/
structure BearNotificationEmbedRow where
  notification_id : DbValue
  title : DbValue
  created_at : DTime
deriving DecidableEq, Repr

/-- Destination `backup_passwords` row.  Modelled from the spec: the
`BackupPassword` model class is referenced by the migrator but not declared
under `scripts/Utils/models/`; the spec's data-model table gives the
`BackupCredential` entity key `discord_id` with a secret value and a created
timestamp. -/
structure BackupPasswordRow where
  discord_id : DbValue
  backup_password : DbValue
  created_at : DTime
deriving DecidableEq, Repr

/-- The destination store: one list per destination table, in source order
of insertion, carrying the data columns (the `updated_at` bookkeeping
column is carried by the `Timed` layer where a claim depends on it; see the
module conventions). -/
structure DState where
  users : List UserRow
  alliance_list : List AllianceRow
  alliancesettings : List AllianceSettingsRow
  gift_codes : List GiftCodeRow
  user_giftcodes : List UserGiftCodeRow
  giftcode_channel : List GiftCodeChannelRow
  furnace_changes : List FurnaceChangeRow
  nickname_changes : List NicknameChangeRow
  botsettings : List BotSettingsRow
  admin : List AdminRow
  bear_notifications : List BearNotificationRow
  bear_notification_embeds : List BearNotificationEmbedRow
  backup_passwords : List BackupPasswordRow
deriving DecidableEq, Repr

/-- The freshly-initialized destination: every table empty. -/
def emptyState : DState :=
  ⟨[], [], [], [], [], [], [], [], [], [], [], [], []⟩

/-! ## Upsert algebra

`create_or_update` (defined on `User`, `BearNotification` and
`BearNotificationEmbed` in the source, and modelled from the spec's
"create-if-absent-else-update-by-key" glossary entry for the model classes
whose callers expect it) finds the first row with the given natural key and
replaces it, or appends a fresh row.  All migrator call sites except the v2
users path pass every data column, so the update is a whole-row
replacement. -/

section UpsertAlgebra

variable {α β : Type} [DecidableEq β]

/-- Replace the first row whose key matches `key x` by `x`, or append `x`. -/
def upsertBy (key : α → β) (x : α) : List α → List α
  | [] => [x]
  | y :: ys => if key y = key x then x :: ys else y :: upsertBy key x ys

/-- Run a whole table family: upsert each transformed source row in order. -/
def writeAll (key : α → β) (rows : List α) (l : List α) : List α :=
  rows.foldl (fun acc r => upsertBy key r acc) l

theorem mem_upsertBy {key : α → β} {x z : α} {l : List α}
    (h : z ∈ upsertBy key x l) : z = x ∨ z ∈ l := by
  induction l with
  | nil => simpa [upsertBy] using h
  | cons y ys ih =>
    by_cases hk : key y = key x
    · simp [upsertBy, hk] at h
      rcases h with h | h
      · exact Or.inl h
      · exact Or.inr (List.mem_cons_of_mem _ h)
    · simp [upsertBy, hk] at h
      rcases h with h | h
      · exact Or.inr (by simp [h])
      · rcases ih h with h' | h'
        · exact Or.inl h'
        · exact Or.inr (List.mem_cons_of_mem _ h')

theorem mem_writeAll {key : α → β} {rows : List α} {z : α} :
    ∀ {l : List α}, z ∈ writeAll key rows l → z ∈ l ∨ z ∈ rows := by
  induction rows with
  | nil => intro l h; exact Or.inl h
  | cons r rs ih =>
    intro l h
    rcases ih (l := upsertBy key r l) h with h' | h'
    · rcases mem_upsertBy h' with h'' | h''
      · exact Or.inr (by simp [h''])
      · exact Or.inl h''
    · exact Or.inr (List.mem_cons_of_mem _ h')

theorem map_key_upsertBy {key : α → β} {x : α} {l : List α}
    (h : key x ∈ l.map key) : (upsertBy key x l).map key = l.map key := by
  induction l with
  | nil => simp at h
  | cons y ys ih =>
    by_cases hk : key y = key x
    · simp [upsertBy, hk]
    · have h' : key x ∈ ys.map key := by
        simp at h
        rcases h with h | h
        · exact absurd h.symm hk
        · simpa using h
      simp [upsertBy, hk, ih h']

theorem upsertBy_of_not_mem {key : α → β} {x : α} {l : List α}
    (h : key x ∉ l.map key) : upsertBy key x l = l ++ [x] := by
  induction l with
  | nil => simp [upsertBy]
  | cons y ys ih =>
    have h1 : key y ≠ key x := by
      intro he; exact h (by simp [he])
    have h2 : key x ∉ ys.map key := by
      intro he; exact h (by simp [he])
    simp [upsertBy, h1, ih h2]

theorem key_mem_upsertBy {key : α → β} (x : α) (l : List α) :
    key x ∈ (upsertBy key x l).map key := by
  induction l with
  | nil => simp [upsertBy]
  | cons y ys ih =>
    by_cases hk : key y = key x
    · simp [upsertBy, hk]
    · simp [upsertBy, hk]
      exact Or.inr (by simpa using ih)

theorem mem_map_key_upsertBy {key : α → β} {x : α} {l : List α} {k : β}
    (h : k ∈ l.map key) : k ∈ (upsertBy key x l).map key := by
  by_cases hx : key x ∈ l.map key
  · rw [map_key_upsertBy hx]; exact h
  · rw [upsertBy_of_not_mem hx, List.map_append]
    exact List.mem_append_left _ h

theorem upsertBy_upsertBy_same {key : α → β} {x y : α} (h : key x = key y) :
    ∀ l : List α, upsertBy key x (upsertBy key y l) = upsertBy key x l := by
  intro l
  induction l with
  | nil => simp [upsertBy, h.symm]
  | cons z zs ih =>
    by_cases hz : key z = key y
    · simp [upsertBy, hz, h.symm, hz.trans h.symm]
    · have hzx : key z ≠ key x := fun he => hz (he.trans h)
      simp [upsertBy, hz, hzx, ih]

theorem upsertBy_comm {key : α → β} {x y : α} (hxy : key x ≠ key y) :
    ∀ l : List α, key x ∈ l.map key → key y ∈ l.map key →
      upsertBy key x (upsertBy key y l) = upsertBy key y (upsertBy key x l) := by
  intro l
  induction l with
  | nil => intro h; simp at h
  | cons z zs ih =>
    intro hx hy
    by_cases hzy : key z = key y
    · have hzx : key z ≠ key x := fun he => hxy (he.symm.trans hzy)
      simp [upsertBy, hzy, hzx, Ne.symm hxy]
    · by_cases hzx : key z = key x
      · simp [upsertBy, hzy, hzx, hxy]
      · have hx' : key x ∈ zs.map key := by
          rw [List.map_cons, List.mem_cons] at hx
          rcases hx with h | h
          · exact absurd h.symm hzx
          · exact h
        have hy' : key y ∈ zs.map key := by
          rw [List.map_cons, List.mem_cons] at hy
          rcases hy with h | h
          · exact absurd h.symm hzy
          · exact h
        simp [upsertBy, hzy, hzx, ih hx' hy']

theorem mem_map_key_writeAll {key : α → β} {rows : List α} {k : β} :
    ∀ {l : List α}, k ∈ l.map key → k ∈ (writeAll key rows l).map key := by
  induction rows with
  | nil => intro l h; exact h
  | cons r rs ih => intro l h; exact ih (mem_map_key_upsertBy h)

theorem key_mem_writeAll {key : α → β} {rows : List α} {x : α}
    (hx : x ∈ rows) : ∀ l : List α, key x ∈ (writeAll key rows l).map key := by
  induction rows with
  | nil => cases hx
  | cons r rs ih =>
    intro l
    rcases List.mem_cons.1 hx with h | h
    · subst h
      show key x ∈ (writeAll key rs (upsertBy key x l)).map key
      exact mem_map_key_writeAll (key_mem_upsertBy x l)
    · exact ih h _

theorem upsertBy_append_of_mem {key : α → β} {x : α} {n t : List α}
    (h : key x ∈ n.map key) : upsertBy key x (n ++ t) = upsertBy key x n ++ t := by
  induction n with
  | nil => simp at h
  | cons y ys ih =>
    by_cases hk : key y = key x
    · simp [upsertBy, hk]
    · have h' : key x ∈ ys.map key := by
        simp at h
        rcases h with h | h
        · exact absurd h.symm hk
        · simpa using h
      simp [upsertBy, hk, ih h']

theorem writeAll_append_right {key : α → β} {rows : List α} {t : List α} :
    ∀ {n : List α}, (∀ x ∈ rows, key x ∈ n.map key) →
      writeAll key rows (n ++ t) = writeAll key rows n ++ t := by
  induction rows with
  | nil => intro n _; rfl
  | cons r rs ih =>
    intro n h
    have hr : key r ∈ n.map key := h r (by simp)
    show writeAll key rs (upsertBy key r (n ++ t)) = writeAll key rs (upsertBy key r n) ++ t
    rw [upsertBy_append_of_mem hr]
    exact ih fun x hx => (map_key_upsertBy hr) ▸ h x (by simp [hx])

theorem writeAll_upsertBy_shadow {key : α → β} {rows : List α} {r : α} :
    ∀ {m : List α}, key r ∈ m.map key → (∀ x ∈ rows, key x ∈ m.map key) →
      (∃ x ∈ rows, key x = key r) →
      writeAll key rows (upsertBy key r m) = writeAll key rows m := by
  induction rows with
  | nil => rintro m _ _ ⟨x, hx, _⟩; cases hx
  | cons x rs ih =>
    intro m hk hall hsh
    by_cases hxr : key x = key r
    · show writeAll key rs (upsertBy key x (upsertBy key r m)) = writeAll key rs (upsertBy key x m)
      rw [upsertBy_upsertBy_same hxr]
    · have hx' : key x ∈ m.map key := hall x (by simp)
      show writeAll key rs (upsertBy key x (upsertBy key r m)) = writeAll key rs (upsertBy key x m)
      rw [upsertBy_comm hxr m hx' hk]
      have hsh' : ∃ y ∈ rs, key y = key r := by
        rcases hsh with ⟨y, hy, hyk⟩
        rcases List.mem_cons.1 hy with h | h
        · exact absurd (h ▸ hyk) hxr
        · exact ⟨y, h, hyk⟩
      exact ih ((map_key_upsertBy hx') ▸ hk)
        (fun z hz => (map_key_upsertBy hx') ▸ hall z (by simp [hz])) hsh'

theorem writeAll_upsertBy_comm {key : α → β} {rows : List α} {r : α} :
    ∀ {m : List α}, key r ∈ m.map key → (∀ x ∈ rows, key x ∈ m.map key) →
      (∀ x ∈ rows, key x ≠ key r) →
      writeAll key rows (upsertBy key r m) = upsertBy key r (writeAll key rows m) := by
  induction rows with
  | nil => intro m _ _ _; rfl
  | cons x rs ih =>
    intro m hk hall hne
    have hx' : key x ∈ m.map key := hall x (by simp)
    show writeAll key rs (upsertBy key x (upsertBy key r m)) =
      upsertBy key r (writeAll key rs (upsertBy key x m))
    rw [upsertBy_comm (hne x (by simp)) m hx' hk]
    exact ih ((map_key_upsertBy hx') ▸ hk)
      (fun z hz => (map_key_upsertBy hx') ▸ hall z (by simp [hz]))
      (fun z hz => hne z (by simp [hz]))

theorem upsertBy_append_self {key : α → β} {r : α} :
    ∀ {n : List α}, key r ∉ n.map key → upsertBy key r (n ++ [r]) = n ++ [r] := by
  intro n
  induction n with
  | nil => simp [upsertBy]
  | cons y ys ih =>
    intro h
    have h1 : key y ≠ key r := by
      intro he; exact h (by simp [he])
    have h2 : key r ∉ ys.map key := by
      intro he; exact h (by simp [he])
    simp [upsertBy, h1, ih h2]

/-- The central idempotence fact: running a family of whole-row upserts a
second time over its own output changes nothing, for any starting table. -/
theorem writeAll_writeAll {key : α → β} (rows : List α) :
    ∀ l : List α, writeAll key rows (writeAll key rows l) = writeAll key rows l := by
  induction rows using List.reverseRecOn with
  | nil => intro l; rfl
  | append_singleton rs r ih =>
    intro l
    have hsnoc : ∀ m : List α, writeAll key (rs ++ [r]) m = upsertBy key r (writeAll key rs m) := by
      intro m; simp [writeAll, List.foldl_append]
    rw [hsnoc, hsnoc]
    set n := writeAll key rs l with hn
    by_cases hk : key r ∈ n.map key
    · by_cases hsh : ∃ x ∈ rs, key x = key r
      · have hall : ∀ x ∈ rs, key x ∈ n.map key := fun x hx => key_mem_writeAll hx l
        rw [writeAll_upsertBy_shadow hk hall hsh, ih l]
      · push_neg at hsh
        have hall : ∀ x ∈ rs, key x ∈ n.map key := fun x hx => key_mem_writeAll hx l
        rw [writeAll_upsertBy_comm hk hall hsh, ih l]
        exact upsertBy_upsertBy_same rfl _
    · have hne : ∀ x ∈ rs, key x ≠ key r := by
        intro x hx he
        exact hk (he ▸ key_mem_writeAll hx l)
      have hall : ∀ x ∈ rs, key x ∈ n.map key := fun x hx => key_mem_writeAll hx l
      rw [upsertBy_of_not_mem hk, writeAll_append_right hall, ih l]
      exact upsertBy_append_self hk

/-- A family of upserts over pairwise-distinct keys, run over a table that
contains none of those keys, just appends the rows in order. -/
theorem writeAll_of_nodup {key : α → β} {rows : List α} :
    ∀ {l : List α}, (∀ x ∈ rows, key x ∉ l.map key) →
      rows.Pairwise (fun a b => key a ≠ key b) →
      writeAll key rows l = l ++ rows := by
  induction rows with
  | nil => intro l _ _; simp [writeAll]
  | cons r rs ih =>
    intro l hl hp
    have hr : key r ∉ l.map key := hl r (by simp)
    show writeAll key rs (upsertBy key r l) = l ++ r :: rs
    rw [upsertBy_of_not_mem hr]
    have hp' := (List.pairwise_cons.1 hp)
    have hl' : ∀ x ∈ rs, key x ∉ (l ++ [r]).map key := by
      intro x hx
      simp only [List.map_append, List.mem_append]
      rintro (h | h)
      · exact hl x (by simp [hx]) h
      · simp at h
        exact (hp'.1 x hx) h.symm
    rw [ih hl' hp'.2]
    simp

end UpsertAlgebra

/-! ## Legacy source files

Each legacy SQLite file is a record of its tables.  A table is `none` when
`SELECT` on it would raise `sqlite3.OperationalError`; a file is `none` when
the file is absent from the source directory, so `_get_connection` raises
`DatabaseError`. -/

/-- One table of a legacy SQLite file: the column names `cursor.description`
reports and the rows `fetchall()` yields. -/
structure SrcTable where
  cols : List String
  rows : List DbRow
deriving DecidableEq, Repr

/-- Legacy `users.sqlite`. -/
structure UsersFile where
  users : Option SrcTable
deriving DecidableEq, Repr

/-- Legacy `alliance.sqlite`. -/
structure AllianceFile where
  alliance_list : Option SrcTable
  alliancesettings : Option SrcTable
deriving DecidableEq, Repr

/-- Legacy `giftcode.sqlite`. -/
structure GiftcodeFile where
  gift_codes : Option SrcTable
  user_giftcodes : Option SrcTable
deriving DecidableEq, Repr

/-- Legacy `changes.sqlite`. -/
structure ChangesFile where
  furnace_changes : Option SrcTable
  nickname_changes : Option SrcTable
deriving DecidableEq, Repr

/-- Legacy `settings.sqlite`. -/
structure SettingsFile where
  botsettings : Option SrcTable
  admin : Option SrcTable
deriving DecidableEq, Repr

/-- Legacy `id_channel.sqlite` (v4 only). -/
structure IdChannelFile where
  id_channel : Option SrcTable
deriving DecidableEq, Repr

/-- Legacy `beartime.sqlite` (v4 only). -/
structure BeartimeFile where
  bear_notifications : Option SrcTable
  bear_notification_embeds : Option SrcTable
deriving DecidableEq, Repr

/-- Legacy `backup.sqlite` (v4 only). -/
structure BackupFile where
  backup_passwords : Option SrcTable
deriving DecidableEq, Repr

/-- A v3 source directory: the five required files, each possibly absent. -/
structure V3Dir where
  users_sqlite : Option UsersFile
  alliance_sqlite : Option AllianceFile
  giftcode_sqlite : Option GiftcodeFile
  changes_sqlite : Option ChangesFile
  settings_sqlite : Option SettingsFile
deriving DecidableEq, Repr

/-- A v4 source directory: the five v3 files plus the three v4-only files. -/
structure V4Dir where
  users_sqlite : Option UsersFile
  alliance_sqlite : Option AllianceFile
  giftcode_sqlite : Option GiftcodeFile
  changes_sqlite : Option ChangesFile
  settings_sqlite : Option SettingsFile
  id_channel_sqlite : Option IdChannelFile
  beartime_sqlite : Option BeartimeFile
  backup_sqlite : Option BackupFile
deriving DecidableEq, Repr

/-- The v2 source file `gift_db.sqlite` as `MigrationButton.migrate_v2` reads
it.  The users table is modelled post-projection, since the code selects the
three named columns `fid, nickname, furnace_lv`. -/
structure V2File where
  users : Option (List (DbValue × DbValue × DbValue))
  gift_codes : Option SrcTable
  user_giftcodes : Option SrcTable
deriving DecidableEq, Repr

/-- The v2 source file as `DatabaseMigration.migrate_v2` reads it: that path
additionally migrates the change-history tables from the same file. -/
structure V2DMFile where
  users : Option (List (DbValue × DbValue × DbValue))
  furnace_changes : Option SrcTable
  nickname_changes : Option SrcTable
  gift_codes : Option SrcTable
  user_giftcodes : Option SrcTable
deriving DecidableEq, Repr

/-- Acquire a connection to a legacy file inside a migration run:
`_get_connection` raises `DatabaseError` when the file does not exist.  The
modelled message carries the file name (the code interpolates the full
path). -/
def getConn {φ : Type} (f : Option φ) (name : String) : Except MigErr φ :=
  match f with
  | none => .error (.db ("Database file not found: " ++ name))
  | some x => .ok x

/-- Run `SELECT * FROM name`: raises `sqlite3.OperationalError` when the
table does not exist. -/
def getTable (t : Option SrcTable) (name : String) : Except MigErr SrcTable :=
  match t with
  | none => .error (.op ("no such table: " ++ name))
  | some tb => .ok tb

/-- Run `SELECT fid, nickname, furnace_lv FROM users` on a v2 source. -/
def getUsersV2 (t : Option (List (DbValue × DbValue × DbValue))) :
    Except MigErr (List (DbValue × DbValue × DbValue)) :=
  match t with
  | none => .error (.op "no such table: users")
  | some l => .ok l

/-- Transform every row, stopping at the first raising row (used by the
table families whose loop runs inside the destination transaction, where
writes preceding an uncaught error are rolled back and hence unobservable). -/
def mapRows {α : Type} (f : DbRow → Except MigErr α) :
    List DbRow → Except MigErr (List α)
  | [] => .ok []
  | r :: rs => do
    let x ← f r
    let xs ← mapRows f rs
    return x :: xs

/-- Transform rows keeping the prefix before the first raising row (used by
the v4-specific families, which catch their own exceptions so the writes
already made survive). -/
def planPrefix {α : Type} (f : DbRow → Except MigErr α) :
    List DbRow → List α × Option MigErr
  | [] => ([], none)
  | r :: rs =>
    match f r with
    | .error e => ([], some e)
    | .ok x =>
      let p := planPrefix f rs
      (x :: p.1, p.2)

/-! ## Natural keys and per-model upserts

`User.create_or_update`, `BearNotification.create_or_update` and
`BearNotificationEmbed.create_or_update` are defined in the source
(`user.py`, `bear_notifications.py`).  The other model classes are called
with `create_or_update` as well but never define it; those upserts are
modelled from the spec: "Upsert: create-if-absent-else-update-by-key, the
exclusive write mode used by every migrator", keyed by the spec's data-model
key for each entity. -/

def userKey (u : UserRow) : DbValue := u.fid

def allianceKey (a : AllianceRow) : DbValue := a.alliance_id

def allianceSettingsKey (a : AllianceSettingsRow) : DbValue := a.alliance_id

def giftCodeKey (g : GiftCodeRow) : DbValue := g.giftcode

def userGiftCodeKey (g : UserGiftCodeRow) : DbValue × DbValue := (g.fid, g.giftcode)

def giftCodeChannelKey (c : GiftCodeChannelRow) : DbValue := c.channel_id

def furnaceChangeKey (c : FurnaceChangeRow) : DbValue := c.id

def nicknameChangeKey (c : NicknameChangeRow) : DbValue := c.id

def botSettingsKey (b : BotSettingsRow) : DbValue := b.id

def adminKey (a : AdminRow) : DbValue := a.id

def bearNotificationKey (b : BearNotificationRow) : DbValue := b.notification_id

def bearEmbedKey (b : BearNotificationEmbedRow) : DbValue × DbValue :=
  (b.notification_id, b.title)

def backupPasswordKey (b : BackupPasswordRow) : DbValue := b.discord_id

/-- The source `User.create_or_update` (`user.py`): `get_or_create` keyed by
`fid`, then update the provided fields.  All v3/v4 call sites provide every
data column, so the update is a whole-row replacement over the data
columns; the `updated_at` stamp the final `save` adds to either branch is
carried by `User.create_or_update_timed` below. -/
def User.create_or_update (u : UserRow) (l : List UserRow) : List UserRow :=
  upsertBy userKey u l

/-- The v2 call site of `User.create_or_update` provides only `nickname`,
`furnace_lv` and `alliance`; an existing row keeps its `kid` and
`stove_lv_content`, a fresh row gets the model defaults (NULL). -/
def upsertUserV2 (u : UserRow) : List UserRow → List UserRow
  | [] => [u]
  | y :: ys =>
    if y.fid = u.fid then
      { u with kid := y.kid, stove_lv_content := y.stove_lv_content } :: ys
    else y :: upsertUserV2 u ys

/-- Fold of `upsertUserV2` over the transformed v2 users rows. -/
def writeAllUserV2 (rows : List UserRow) (l : List UserRow) : List UserRow :=
  rows.foldl (fun acc r => upsertUserV2 r acc) l

/-! ## Row transforms, one per migrator loop body -/

/-- The v3 users loop body (`migrate_v3`): positional fields 0–5, all
unguarded. -/
def userRowV3 (r : DbRow) : Except MigErr UserRow := do
  let fid ← idx r 0
  let nickname ← idx r 1
  let furnace ← idx r 2
  let kid ← idx r 3
  let stove ← idx r 4
  let alli ← idx r 5
  return ⟨fid, nickname, furnace, kid, stove, alli⟩

/-- The v2 users loop body: `fid, nickname, furnace_lv` from the projected
row, `alliance = str(alliance_id)`, model defaults for the rest. -/
def userRowV2 (alliance_id : Int) (u : DbValue × DbValue × DbValue) : UserRow :=
  ⟨u.1, u.2.1, u.2.2, .null, .null, .text (toString alliance_id)⟩

/-- Reason string of `_validate_data` for the users table: the message of the
first failing `isinstance` check, `none` when the record is accepted. -/
def validateUsersReason (fid nickname furnace : DbValue) : Option String :=
  if fid.isInt then
    if nickname.isText then
      if furnace.isInt then none
      else some "Invalid furnace level"
    else some "Invalid nickname"
  else some "Invalid FID"

/-- The source `_validate_data` on the users table: it raises
`ValidationError` internally, catches it, and returns a boolean — it is a
total boolean function of the record. -/
def MigrationButton.validate_data_users (fid nickname furnace : DbValue) : Bool :=
  (validateUsersReason fid nickname furnace).isNone

/-- The v4 users loop (`migrate_v4`): build the positional record (fields
0–5 unguarded, 6–7 guarded but feeding only the bookkeeping columns), then
test `if self._validate_data('users', user_data)`.  `_validate_data` is an
`async def` and the call site does not `await` it, so the test is a
coroutine object — always truthy — and the loop upserts EVERY row and logs
it as successfully processed; the rejection branch (skip, reason warning,
failed-record line) is dead code.  `validate_data_users` above is the
embedded body of the never-awaited coroutine. -/
def usersV4Plan : List DbRow → Except MigErr (List UserRow × List LogEntry)
  | [] => .ok ([], [])
  | r :: rs => do
    let fid ← idx r 0
    let nickname ← idx r 1
    let furnace ← idx r 2
    let kid ← idx r 3
    let stove ← idx r 4
    let alli ← idx r 5
    let rest ← usersV4Plan rs
    .ok (⟨fid, nickname, furnace, kid, stove, alli⟩ :: rest.1,
      .recordOk fid.pyStr :: rest.2)

/-- The alliance-list loop body (`_migrate_alliances`, identical in
`MigrationButton` and `DatabaseMigration`): fields 0–1 unguarded, field 2
guarded with default `None`. -/
def allianceRowOf (r : DbRow) : Except MigErr AllianceRow := do
  let a ← idx r 0
  let n ← idx r 1
  return ⟨a, n, (r.get? 2).getD .null⟩

/-- The alliance-settings loop body: fields 0–1 unguarded, field 2 guarded
with default `0`. -/
def allianceSettingsRowOf (r : DbRow) : Except MigErr AllianceSettingsRow := do
  let a ← idx r 0
  let c ← idx r 1
  return ⟨a, c, (r.get? 2).getD (.int 0)⟩

/-- The gift-codes loop body of `_migrate_giftcodes` (shared by the v3/v4
paths of `MigrationButton` and by `DatabaseMigration.migrate_v2`/`v3`):
field 2 guarded with default `'pending'`. -/
def giftCodeRowOf (r : DbRow) : Except MigErr GiftCodeRow := do
  let g ← idx r 0
  let d ← idx r 1
  return ⟨g, d, (r.get? 2).getD (.text "pending")⟩

/-- The gift-codes loop body inlined in `MigrationButton.migrate_v2`: the
validation status is hard-coded to `'pending'`, ignoring any source value. -/
def giftCodeRowV2 (r : DbRow) : Except MigErr GiftCodeRow := do
  let g ← idx r 0
  let d ← idx r 1
  return ⟨g, d, .text "pending"⟩

/-- The user-gift-codes loop body. -/
def userGiftCodeRowOf (r : DbRow) : Except MigErr UserGiftCodeRow := do
  let f ← idx r 0
  let g ← idx r 1
  let s ← idx r 2
  return ⟨f, g, s⟩

/-- The furnace-changes loop body. -/
def furnaceChangeRowOf (r : DbRow) : Except MigErr FurnaceChangeRow := do
  let i ← idx r 0
  let f ← idx r 1
  let o ← idx r 2
  let n ← idx r 3
  let d ← idx r 4
  return ⟨i, f, o, n, d⟩

/-- The nickname-changes loop body. -/
def nicknameChangeRowOf (r : DbRow) : Except MigErr NicknameChangeRow := do
  let i ← idx r 0
  let f ← idx r 1
  let o ← idx r 2
  let n ← idx r 3
  let d ← idx r 4
  return ⟨i, f, o, n, d⟩

/-- The bot-settings loop body. -/
def botSettingsRowOf (r : DbRow) : Except MigErr BotSettingsRow := do
  let i ← idx r 0
  let c ← idx r 1
  return ⟨i, c⟩

/-- The admin loop body. -/
def adminRowOf (r : DbRow) : Except MigErr AdminRow := do
  let i ← idx r 0
  let a ← idx r 1
  return ⟨i, a⟩

/-- The id-channel loop body: fields 0–1 unguarded, field 2 guarded. -/
def giftCodeChannelRowOf (r : DbRow) : Except MigErr GiftCodeChannelRow := do
  let c ← idx r 0
  let a ← idx r 1
  return ⟨c, a, (r.get? 2).getD .null⟩

/-- The bear-notifications loop body: `notif[1]`, `notif[2]` unguarded;
`sent_at` is `strptime(notif[3])` when `len(notif) > 3 and notif[3]` is
truthy (a guarded access defaulting to NULL, which is falsy, makes the
length check redundant) and `datetime.now()` otherwise; a truthy malformed
cell raises inside the loop. -/
def bearNotificationRowOf (now : Nat) (r : DbRow) : Except MigErr BearNotificationRow := do
  let nid ← idx r 1
  let ntime ← idx r 2
  let sent ← if (idxOpt r 3).truthy then strptime (idxOpt r 3) else .ok (.now now)
  return ⟨nid, ntime, sent⟩

/-- The bear-notification-embeds loop body.  `migrated` is the list of
`notification_id` values of the instances returned by the notifications
loop, in order; `next(n for n in migrated_notifications if
n.notification_id == embed[1])` raises `StopIteration` when no parent
matches (and before even reading `embed[1]` when the list is empty). -/
def bearEmbedRowOf (migrated : List DbValue) (now : Nat) (r : DbRow) :
    Except MigErr BearNotificationEmbedRow :=
  match migrated with
  | [] => .error .stopIteration
  | _ :: _ => do
    let e1 ← idx r 1
    match migrated.find? (fun n => n == e1) with
    | none => .error .stopIteration
    | some p => do
      let t ← idx r 2
      let c ← if (idxOpt r 3).truthy then strptime (idxOpt r 3) else .ok (.now now)
      return ⟨p, t, c⟩

/-- The backup-passwords loop body; a truthy malformed `created_at` cell
raises inside the loop. -/
def backupPasswordRowOf (now : Nat) (r : DbRow) : Except MigErr BackupPasswordRow := do
  let d ← idx r 0
  let p ← idx r 1
  let c ← if (idxOpt r 2).truthy then strptime (idxOpt r 2) else .ok (.now now)
  return ⟨d, p, c⟩

/-- The report line every count-reporting family appends. -/
def migMsg (n : Nat) (what : String) : String :=
  "Migrated " ++ toString n ++ " " ++ what

/-! ## Family plans

Each plan computes, from the source alone, the transformed rows a family
will upsert and the report lines it appends, or the exception it raises
together with the lines appended before it (the v4 handler keeps them, the
v2/v3 handlers discard them). -/

/-- The `_migrate_alliances` family (textually identical in
`MigrationButton` and `DatabaseMigration`): alliance list, then alliance
settings. -/
def alliancesPlan (f : AllianceFile) :
    Except (List String × MigErr)
      ((List AllianceRow × List AllianceSettingsRow) × List String) :=
  match getTable f.alliance_list "alliance_list" with
  | .error e => .error ([], e)
  | .ok t1 =>
    match mapRows allianceRowOf t1.rows with
    | .error e => .error ([], e)
    | .ok as_ =>
      let m1 := migMsg t1.rows.length "alliances"
      match getTable f.alliancesettings "alliancesettings" with
      | .error e => .error ([m1], e)
      | .ok t2 =>
        match mapRows allianceSettingsRowOf t2.rows with
        | .error e => .error ([m1], e)
        | .ok ss => .ok ((as_, ss), [m1, migMsg t2.rows.length "alliance settings"])

/-- The `_migrate_giftcodes` family (shared by the v3/v4 paths of both
classes and by `DatabaseMigration.migrate_v2`): gift codes, then per-user
redemptions. -/
def giftcodesPlan (f : GiftcodeFile) :
    Except (List String × MigErr)
      ((List GiftCodeRow × List UserGiftCodeRow) × List String) :=
  match getTable f.gift_codes "gift_codes" with
  | .error e => .error ([], e)
  | .ok t1 =>
    match mapRows giftCodeRowOf t1.rows with
    | .error e => .error ([], e)
    | .ok gs =>
      let m1 := migMsg t1.rows.length "gift codes"
      match getTable f.user_giftcodes "user_giftcodes" with
      | .error e => .error ([m1], e)
      | .ok t2 =>
        match mapRows userGiftCodeRowOf t2.rows with
        | .error e => .error ([m1], e)
        | .ok us => .ok ((gs, us), [m1, migMsg t2.rows.length "user gift codes"])

/-- The `_migrate_changes` family: furnace changes, then nickname changes. -/
def changesPlan (f : ChangesFile) :
    Except (List String × MigErr)
      ((List FurnaceChangeRow × List NicknameChangeRow) × List String) :=
  match getTable f.furnace_changes "furnace_changes" with
  | .error e => .error ([], e)
  | .ok t1 =>
    match mapRows furnaceChangeRowOf t1.rows with
    | .error e => .error ([], e)
    | .ok fs =>
      let m1 := migMsg t1.rows.length "furnace changes"
      match getTable f.nickname_changes "nickname_changes" with
      | .error e => .error ([m1], e)
      | .ok t2 =>
        match mapRows nicknameChangeRowOf t2.rows with
        | .error e => .error ([m1], e)
        | .ok ns => .ok ((fs, ns), [m1, migMsg t2.rows.length "nickname changes"])

/-- The `_migrate_settings` family: bot settings, then admin settings. -/
def settingsPlan (f : SettingsFile) :
    Except (List String × MigErr)
      ((List BotSettingsRow × List AdminRow) × List String) :=
  match getTable f.botsettings "botsettings" with
  | .error e => .error ([], e)
  | .ok t1 =>
    match mapRows botSettingsRowOf t1.rows with
    | .error e => .error ([], e)
    | .ok bs =>
      let m1 := migMsg t1.rows.length "bot settings"
      match getTable f.admin "admin" with
      | .error e => .error ([m1], e)
      | .ok t2 =>
        match mapRows adminRowOf t2.rows with
        | .error e => .error ([m1], e)
        | .ok ads => .ok ((bs, ads), [m1, migMsg t2.rows.length "admin settings"])

/-- Columns `_migrate_v4_specific_data` requires of `id_channel`. -/
def expectedIdChannelCols : List String :=
  ["channel_id", "alliance_id", "last_message_id"]

/-- Columns `_migrate_v4_specific_data` requires of `backup_passwords`. -/
def expectedBackupCols : List String :=
  ["discord_id", "backup_password", "created_at"]

/-- The id-channel block of `_migrate_v4_specific_data`.  It catches its own
exceptions: `DatabaseError` yields a `⚠` line, anything else a `✗` line, and
the rows upserted before the error survive. -/
def idChannelPlan (f : Option IdChannelFile) :
    List GiftCodeChannelRow × List String :=
  match f with
  | none =>
    ([], ["⚠ ID channel migration error: Database file not found: id_channel.sqlite"])
  | some file =>
    match file.id_channel with
    | none => ([], ["✗ ID channel migration failed: no such table: id_channel"])
    | some t =>
      if expectedIdChannelCols.all (fun c => t.cols.contains c) then
        match planPrefix giftCodeChannelRowOf t.rows with
        | (rows, none) =>
          (rows, ["✓ Migrated " ++ toString t.rows.length ++ " ID channel mappings"])
        | (rows, some e) => (rows, ["✗ ID channel migration failed: " ++ e.msg])
      else
        ([], ["⚠ ID channel migration error: ID channel table missing required columns"])

/-- The bear-time block of `_migrate_v4_specific_data`: parent notifications
first, then detail embeds resolved against the freshly migrated parents by
business id.  Any exception aborts the rest of the block with a `✗` line,
keeping the rows upserted before it. -/
def bearPlan (f : Option BeartimeFile) (now : Nat) :
    List BearNotificationRow × List BearNotificationEmbedRow × List String :=
  match f with
  | none =>
    ([], [], ["⚠ Bear time migration error: Database file not found: beartime.sqlite"])
  | some file =>
    match file.bear_notifications with
    | none => ([], [], ["✗ Bear time migration failed: no such table: bear_notifications"])
    | some t =>
      match planPrefix (bearNotificationRowOf now) t.rows with
      | (ns, some e) => (ns, [], ["✗ Bear time migration failed: " ++ e.msg])
      | (ns, none) =>
        let m1 := "✓ Migrated " ++ toString t.rows.length ++ " bear notifications"
        let migrated := ns.map (fun n => n.notification_id)
        match file.bear_notification_embeds with
        | none =>
          (ns, [], [m1, "✗ Bear time migration failed: no such table: bear_notification_embeds"])
        | some te =>
          match planPrefix (bearEmbedRowOf migrated now) te.rows with
          | (es, some e) => (ns, es, [m1, "✗ Bear time migration failed: " ++ e.msg])
          | (es, none) =>
            (ns, es,
              [m1, "✓ Migrated " ++ toString te.rows.length ++ " bear notification embeds"])

/-- The backup block of `_migrate_v4_specific_data`. -/
def backupPlan (f : Option BackupFile) (now : Nat) :
    List BackupPasswordRow × List String :=
  match f with
  | none =>
    ([], ["⚠ Backup data migration error: Database file not found: backup.sqlite"])
  | some file =>
    match file.backup_passwords with
    | none => ([], ["✗ Backup data migration failed: no such table: backup_passwords"])
    | some t =>
      if expectedBackupCols.all (fun c => t.cols.contains c) then
        match planPrefix (backupPasswordRowOf now) t.rows with
        | (rows, none) =>
          (rows, ["✓ Migrated " ++ toString t.rows.length ++ " backup passwords"])
        | (rows, some e) => (rows, ["✗ Backup data migration failed: " ++ e.msg])
      else
        ([], ["⚠ Backup data migration error: Backup passwords table missing required columns"])

/-! ## The migration entry points -/

/-- Result of a v2/v3 run: the `(success, messages)` pair the coroutine
returns, together with the destination state it leaves behind. -/
structure MigResult where
  success : Bool
  messages : List String
  state : DState
deriving DecidableEq, Repr

/-- Result of a v4 run; also carries the modelled migration-log entries
(empty on the failure path, where the log is not modelled). -/
structure V4Result where
  success : Bool
  messages : List String
  state : DState
  log : List LogEntry
deriving DecidableEq, Repr

/-- Everything `MigrationButton.migrate_v2` computes from the source before
writing. -/
structure V2Plan where
  users : List UserRow
  gcodes : List GiftCodeRow
  ugcodes : List UserGiftCodeRow
  msgs : List String
deriving DecidableEq, Repr

/-- The read/transform half of `MigrationButton.migrate_v2`. -/
def v2PlansMB (alliance_id : Int) (f : V2File) : Except MigErr V2Plan := do
  let ut ← getUsersV2 f.users
  let us := ut.map (userRowV2 alliance_id)
  let gt ← getTable f.gift_codes "gift_codes"
  let gs ← mapRows giftCodeRowV2 gt.rows
  let utt ← getTable f.user_giftcodes "user_giftcodes"
  let ugs ← mapRows userGiftCodeRowOf utt.rows
  return ⟨us, gs, ugs,
    [migMsg ut.length "users", migMsg gt.rows.length "gift codes",
      migMsg utt.rows.length "user gift codes"]⟩

/-- Apply the v2 upserts, in loop order. -/
def v2Apply (p : V2Plan) (st : DState) : DState :=
  { st with
    users := writeAllUserV2 p.users st.users,
    gift_codes := writeAll giftCodeKey p.gcodes st.gift_codes,
    user_giftcodes := writeAll userGiftCodeKey p.ugcodes st.user_giftcodes }

/-- The source `MigrationButton.migrate_v2`: missing source short-circuits;
an exception inside `db.atomic()` rolls every write back and returns only
the error line. -/
def MigrationButton.migrate_v2 (alliance_id : Int) (src : Option V2File)
    (st : DState) : MigResult :=
  match src with
  | none => ⟨false, ["Source database not found"], st⟩
  | some f =>
    match v2PlansMB alliance_id f with
    | .ok p => ⟨true, p.msgs, v2Apply p st⟩
    | .error e => ⟨false, ["Error during migration: " ++ e.msg], st⟩

/-- Everything `migrate_v3` computes from the source before writing. -/
structure V3Plan where
  users : List UserRow
  alliances : List AllianceRow
  asettings : List AllianceSettingsRow
  gcodes : List GiftCodeRow
  ugcodes : List UserGiftCodeRow
  fchanges : List FurnaceChangeRow
  nchanges : List NicknameChangeRow
  bsettings : List BotSettingsRow
  admins : List AdminRow
  msgs : List String
deriving DecidableEq, Repr

/-- The read/transform half of `MigrationButton.migrate_v3` (and of
`DatabaseMigration.migrate_v3`, whose body is identical): users, alliances,
gift codes, changes, settings, in the documented order. -/
def v3Plans (d : V3Dir) : Except MigErr V3Plan := do
  let uf ← getConn d.users_sqlite "users.sqlite"
  let ut ← getTable uf.users "users"
  let us ← mapRows userRowV3 ut.rows
  let af ← getConn d.alliance_sqlite "alliance.sqlite"
  let ap ← (alliancesPlan af).mapError (fun e => e.2)
  let gf ← getConn d.giftcode_sqlite "giftcode.sqlite"
  let gp ← (giftcodesPlan gf).mapError (fun e => e.2)
  let cf ← getConn d.changes_sqlite "changes.sqlite"
  let cp ← (changesPlan cf).mapError (fun e => e.2)
  let sf ← getConn d.settings_sqlite "settings.sqlite"
  let sp ← (settingsPlan sf).mapError (fun e => e.2)
  return ⟨us, ap.1.1, ap.1.2, gp.1.1, gp.1.2, cp.1.1, cp.1.2, sp.1.1, sp.1.2,
    [migMsg ut.rows.length "users"] ++ ap.2 ++ gp.2 ++ cp.2 ++ sp.2⟩

/-- Apply the v3 upserts, in loop order. -/
def v3Apply (p : V3Plan) (st : DState) : DState :=
  { st with
    users := writeAll userKey p.users st.users,
    alliance_list := writeAll allianceKey p.alliances st.alliance_list,
    alliancesettings := writeAll allianceSettingsKey p.asettings st.alliancesettings,
    gift_codes := writeAll giftCodeKey p.gcodes st.gift_codes,
    user_giftcodes := writeAll userGiftCodeKey p.ugcodes st.user_giftcodes,
    furnace_changes := writeAll furnaceChangeKey p.fchanges st.furnace_changes,
    nickname_changes := writeAll nicknameChangeKey p.nchanges st.nickname_changes,
    botsettings := writeAll botSettingsKey p.bsettings st.botsettings,
    admin := writeAll adminKey p.admins st.admin }

/-- The source `MigrationButton.migrate_v3`. -/
def MigrationButton.migrate_v3 (src : Option V3Dir) (st : DState) : MigResult :=
  match src with
  | none => ⟨false, ["Source directory not found"], st⟩
  | some d =>
    match v3Plans d with
    | .ok p => ⟨true, p.msgs, v3Apply p st⟩
    | .error e => ⟨false, ["Error during migration: " ++ e.msg], st⟩

/-- Everything the five outer v4 families (users, alliances, gift codes,
changes, settings) compute from the source before writing. -/
structure V4OuterPlan where
  users : List UserRow
  log : List LogEntry
  alliances : List AllianceRow
  asettings : List AllianceSettingsRow
  gcodes : List GiftCodeRow
  ugcodes : List UserGiftCodeRow
  fchanges : List FurnaceChangeRow
  nchanges : List NicknameChangeRow
  bsettings : List BotSettingsRow
  admins : List AdminRow
  msgs : List String
deriving DecidableEq, Repr

/-- Everything `migrate_v4` computes from the source before writing. -/
structure V4Plan where
  users : List UserRow
  log : List LogEntry
  alliances : List AllianceRow
  asettings : List AllianceSettingsRow
  gcodes : List GiftCodeRow
  ugcodes : List UserGiftCodeRow
  fchanges : List FurnaceChangeRow
  nchanges : List NicknameChangeRow
  bsettings : List BotSettingsRow
  admins : List AdminRow
  gchannels : List GiftCodeChannelRow
  bnotifs : List BearNotificationRow
  bembeds : List BearNotificationEmbedRow
  bpasswords : List BackupPasswordRow
  msgs : List String
deriving DecidableEq, Repr

/-- The read/transform half of the five outer families of
`MigrationButton.migrate_v4`: they raise past their boundary, and the error
carries the report lines appended before it. -/
def v4OuterPlans (d : V4Dir) : Except (List String × MigErr) V4OuterPlan :=
  match getConn d.users_sqlite "users.sqlite" with
  | .error e => .error ([], e)
  | .ok uf =>
    match getTable uf.users "users" with
    | .error e => .error ([], e)
    | .ok ut =>
      match usersV4Plan ut.rows with
      | .error e => .error ([], e)
      | .ok ul =>
        let m0 := "✓ Migrated " ++ toString ut.rows.length ++ " users"
        match getConn d.alliance_sqlite "alliance.sqlite" with
        | .error e => .error ([m0], e)
        | .ok af =>
          match alliancesPlan af with
          | .error e => .error ([m0] ++ e.1, e.2)
          | .ok ap =>
            match getConn d.giftcode_sqlite "giftcode.sqlite" with
            | .error e => .error ([m0] ++ ap.2, e)
            | .ok gf =>
              match giftcodesPlan gf with
              | .error e => .error ([m0] ++ ap.2 ++ e.1, e.2)
              | .ok gp =>
                match getConn d.changes_sqlite "changes.sqlite" with
                | .error e => .error ([m0] ++ ap.2 ++ gp.2, e)
                | .ok cf =>
                  match changesPlan cf with
                  | .error e => .error ([m0] ++ ap.2 ++ gp.2 ++ e.1, e.2)
                  | .ok cp =>
                    match getConn d.settings_sqlite "settings.sqlite" with
                    | .error e => .error ([m0] ++ ap.2 ++ gp.2 ++ cp.2, e)
                    | .ok sf =>
                      match settingsPlan sf with
                      | .error e => .error ([m0] ++ ap.2 ++ gp.2 ++ cp.2 ++ e.1, e.2)
                      | .ok sp =>
                        .ok ⟨ul.1, ul.2, ap.1.1, ap.1.2, gp.1.1, gp.1.2,
                          cp.1.1, cp.1.2, sp.1.1, sp.1.2,
                          [m0] ++ ap.2 ++ gp.2 ++ cp.2 ++ sp.2⟩

/-- The read/transform half of `MigrationButton.migrate_v4`: the five outer
families first; the three v4-specific blocks catch internally and always
contribute their lines and surviving rows. -/
def v4Plans (d : V4Dir) (now : Nat) : Except (List String × MigErr) V4Plan :=
  match v4OuterPlans d with
  | .error e => .error e
  | .ok op =>
    let ic := idChannelPlan d.id_channel_sqlite
    let bt := bearPlan d.beartime_sqlite now
    let bk := backupPlan d.backup_sqlite now
    .ok ⟨op.users, op.log, op.alliances, op.asettings, op.gcodes, op.ugcodes,
      op.fchanges, op.nchanges, op.bsettings, op.admins,
      ic.1, bt.1, bt.2.1, bk.1,
      op.msgs ++ ic.2 ++ bt.2.2 ++ bk.2⟩

/-- Apply the v4 upserts, in loop order. -/
def v4Apply (p : V4Plan) (st : DState) : DState :=
  { st with
    users := writeAll userKey p.users st.users,
    alliance_list := writeAll allianceKey p.alliances st.alliance_list,
    alliancesettings := writeAll allianceSettingsKey p.asettings st.alliancesettings,
    gift_codes := writeAll giftCodeKey p.gcodes st.gift_codes,
    user_giftcodes := writeAll userGiftCodeKey p.ugcodes st.user_giftcodes,
    furnace_changes := writeAll furnaceChangeKey p.fchanges st.furnace_changes,
    nickname_changes := writeAll nicknameChangeKey p.nchanges st.nickname_changes,
    botsettings := writeAll botSettingsKey p.bsettings st.botsettings,
    admin := writeAll adminKey p.admins st.admin,
    giftcode_channel := writeAll giftCodeChannelKey p.gchannels st.giftcode_channel,
    bear_notifications := writeAll bearNotificationKey p.bnotifs st.bear_notifications,
    bear_notification_embeds := writeAll bearEmbedKey p.bembeds st.bear_notification_embeds,
    backup_passwords := writeAll backupPasswordKey p.bpasswords st.backup_passwords }

/-- A destination row paired with the `updated_at` bookkeeping column that
`BaseModel` adds to every table; the overridden `save` (`base.py`) sets it
to `datetime.now()` on every write, inserts and updates alike.  `DState`
above carries the data columns; this layer carries `updated_at` where a
claim depends on it.  (`created_at` is set at insert and never modified:
`_rollback` re-creates it verbatim from the snapshot record and updates
never touch it, so no claim distinguishes it.) -/
structure Timed (α : Type) where
  data : α
  updated_at : DTime
deriving DecidableEq, Repr

/-- The effect of `_rollback` on one snapshotted table when its statements
succeed: `delete()` every current row, then `create(**record)` each snapshot
record — data and `created_at` columns come from the snapshot verbatim,
while the overridden `save` stamps `updated_at` with the rollback time. -/
def restoreTable {α : Type} (snap : List (Timed α)) (now : Nat) : List (Timed α) :=
  snap.map (fun r => ⟨r.data, .now now⟩)

/-- The source `User.create_or_update` over timed rows: the written row
carries `updated_at = now` whether it is inserted fresh or updates an
existing row — `user.save()` runs the `BaseModel.save` override either
way. -/
def User.create_or_update_timed (now : Nat) (u : UserRow)
    (l : List (Timed UserRow)) : List (Timed UserRow) :=
  upsertBy (fun r => userKey r.data) ⟨u, .now now⟩ l

/-- Whether `_rollback`'s `delete()` statements pass the destination's
foreign-key checks (`PRAGMA foreign_keys = 1`): deleting every `users` row
raises `IntegrityError` when a furnace or nickname change references one,
and deleting every `bear_notifications` row when an embed references one
(`fid` / `notification` are `ForeignKeyField`s without cascade; the
referencing tables are not snapshotted or deleted).  On a raise,
`_rollback`'s own `db.atomic()` transaction rolls back, so the destination
is left exactly as it was; `backup_passwords` has no referencing table. -/
def rollbackSucceeds (st : DState) : Bool :=
  !(st.users.any (fun u =>
      st.furnace_changes.any (fun c => c.fid == u.fid)
        || st.nickname_changes.any (fun c => c.fid == u.fid))
    || st.bear_notifications.any (fun n =>
        st.bear_notification_embeds.any (fun e =>
          e.notification_id == n.notification_id)))

/-- The source `MigrationButton.migrate_v4`: snapshot the three tables
`_backup_table` copies (`users`, `bear_notifications`, `backup_passwords`),
run the transactional phase; on an uncaught exception the transaction is
rolled back (the destination data columns revert to the pre-run state) and
`_rollback` then deletes and re-creates the snapshotted tables.  When its
deletes pass the foreign-key checks the re-created rows equal the snapshot
in every data column — with `updated_at` stamped by the restore, per
`restoreTable` — and the success rollback line is appended; when a delete
raises, `_rollback`'s own transaction rolls back (destination untouched)
and the failure line is appended.  Either way the data-column state is the
pre-run `st`. -/
def MigrationButton.migrate_v4 (src : Option V4Dir) (st : DState) (now : Nat) :
    V4Result :=
  match src with
  | none => ⟨false, ["Source directory not found"], st, []⟩
  | some d =>
    let snapUsers := st.users
    let snapBear := st.bear_notifications
    let snapBackup := st.backup_passwords
    match v4Plans d now with
    | .ok p => ⟨true, p.msgs, v4Apply p st, p.log⟩
    | .error ems =>
      let afterTx := st
      if rollbackSucceeds afterTx then
        ⟨false, ems.1 ++ ["✗ Migration failed - Successfully rolled back changes"],
          { afterTx with
            users := snapUsers,
            bear_notifications := snapBear,
            backup_passwords := snapBackup }, []⟩
      else
        ⟨false, ems.1 ++ ["✗ Migration failed - Rollback also failed"], afterTx, []⟩

/-- Everything `DatabaseMigration.migrate_v2` computes before writing: that
path migrates users, then the change-history tables, then the gift-code
tables, all from the single v2 file. -/
structure V2DMPlan where
  users : List UserRow
  fchanges : List FurnaceChangeRow
  nchanges : List NicknameChangeRow
  gcodes : List GiftCodeRow
  ugcodes : List UserGiftCodeRow
  msgs : List String
deriving DecidableEq, Repr

/-- The read/transform half of `DatabaseMigration.migrate_v2`; note it
delegates gift codes to `_migrate_giftcodes`, which preserves a present
`validation_status`. -/
def v2PlansDM (alliance_id : Int) (f : V2DMFile) : Except MigErr V2DMPlan := do
  let ut ← getUsersV2 f.users
  let us := ut.map (userRowV2 alliance_id)
  let cp ← (changesPlan ⟨f.furnace_changes, f.nickname_changes⟩).mapError (fun e => e.2)
  let gp ← (giftcodesPlan ⟨f.gift_codes, f.user_giftcodes⟩).mapError (fun e => e.2)
  return ⟨us, cp.1.1, cp.1.2, gp.1.1, gp.1.2,
    [migMsg ut.length "users"] ++ cp.2 ++ gp.2⟩

/-- Apply the `DatabaseMigration.migrate_v2` upserts, in loop order. -/
def v2ApplyDM (p : V2DMPlan) (st : DState) : DState :=
  { st with
    users := writeAllUserV2 p.users st.users,
    furnace_changes := writeAll furnaceChangeKey p.fchanges st.furnace_changes,
    nickname_changes := writeAll nicknameChangeKey p.nchanges st.nickname_changes,
    gift_codes := writeAll giftCodeKey p.gcodes st.gift_codes,
    user_giftcodes := writeAll userGiftCodeKey p.ugcodes st.user_giftcodes }

/-- The source `DatabaseMigration.migrate_v2` (`migration.py`). -/
def DatabaseMigration.migrate_v2 (alliance_id : Int) (src : Option V2DMFile)
    (st : DState) : MigResult :=
  match src with
  | none => ⟨false, ["Source database not found"], st⟩
  | some f =>
    match v2PlansDM alliance_id f with
    | .ok p => ⟨true, p.msgs, v2ApplyDM p st⟩
    | .error e => ⟨false, ["Error during migration: " ++ e.msg], st⟩

/-! ## Version detection and the connection pools -/

/-- The `old_data` folder the detector resolves next to the installation. -/
def oldDataPath : String := "old_data"

/-- Model of `os.path.join`. -/
def joinPath (d f : String) : String := d ++ "/" ++ f

/-- The fixed 8-file set `detect_database_version` requires for v4. -/
def v4Files : List String :=
  ["users.sqlite", "alliance.sqlite", "giftcode.sqlite", "changes.sqlite",
   "settings.sqlite", "id_channel.sqlite", "beartime.sqlite", "backup.sqlite"]

/-- The fixed 5-file subset required for v3. -/
def v3Files : List String :=
  ["users.sqlite", "alliance.sqlite", "giftcode.sqlite", "changes.sqlite",
   "settings.sqlite"]

/-- The source `detect_database_version`, over the set of existing paths
(`fs` models `os.path.exists`): nonexistent base folder first, then v4, then
v3, then the v2 combined file, else `unknown`. -/
def MigrationButton.detect_database_version (fs : List String) : String × String :=
  if fs.contains oldDataPath = false then ("none", oldDataPath)
  else if v4Files.all (fun f => fs.contains (joinPath oldDataPath f)) then
    ("v4", oldDataPath)
  else if v3Files.all (fun f => fs.contains (joinPath oldDataPath f)) then
    ("v3", oldDataPath)
  else if fs.contains (joinPath oldDataPath "gift_db.sqlite") then
    ("v2", joinPath oldDataPath "gift_db.sqlite")
  else ("unknown", oldDataPath)

/-- State the two connection pools act on: the set of existing files and the
set of cached connection paths. -/
structure PoolState where
  fs : List String
  cache : List String
deriving DecidableEq, Repr

/-- The source `MigrationButton._get_connection`: check existence first
(raising `DatabaseError` and touching nothing), then connect and cache if
not already cached. -/
def MigrationButton.get_connection (s : PoolState) (p : String) :
    Except String PoolState :=
  if s.fs.contains p = false then .error ("Database file not found: " ++ p)
  else if s.cache.contains p then .ok s
  else .ok ⟨s.fs, s.cache ++ [p]⟩

/-- The source `DatabaseMigration._get_connection`: no existence check —
`sqlite3.connect` is called directly, which creates an empty database file
when the path does not exist (standard sqlite behaviour), and the connection
is cached unconditionally. -/
def DatabaseMigration.get_connection (s : PoolState) (p : String) : PoolState :=
  if s.cache.contains p then s
  else ⟨if s.fs.contains p then s.fs else s.fs ++ [p], s.cache ++ [p]⟩

/-- Whether every v4-specific timestamp cell the bear/backup migrators read
is present and truthy, so that no `datetime.now()` default fires. -/
def tableTimestampsOK (t : Option SrcTable) (i : Nat) : Bool :=
  match t with
  | none => true
  | some tb => tb.rows.all (fun r => (idxOpt r i).truthy)

/-- No `datetime.now()` default fires anywhere in a v4 run on this source. -/
def timestampsComplete (d : V4Dir) : Bool :=
  (match d.beartime_sqlite with
   | none => true
   | some f =>
     tableTimestampsOK f.bear_notifications 3
       && tableTimestampsOK f.bear_notification_embeds 3)
  && (match d.backup_sqlite with
      | none => true
      | some f => tableTimestampsOK f.backup_passwords 2)

/-! ## Concrete fixtures shared by the claim theorems -/

/-- An existing table with no rows. -/
def tEmpty : SrcTable := ⟨[], []⟩

/-- An empty `id_channel` table carrying the required columns. -/
def tIdCols : SrcTable := ⟨["channel_id", "alliance_id", "last_message_id"], []⟩

/-- An empty `backup_passwords` table carrying the required columns. -/
def tBkCols : SrcTable := ⟨["discord_id", "backup_password", "created_at"], []⟩

/-- A v4 source whose required `users.sqlite` is missing, so the first step
inside the transaction raises `DatabaseError`. -/
def atomDir : V4Dir :=
  ⟨none, some ⟨some tEmpty, some tEmpty⟩, some ⟨some tEmpty, some tEmpty⟩,
   some ⟨some tEmpty, some tEmpty⟩, some ⟨some tEmpty, some tEmpty⟩,
   some ⟨some tIdCols⟩, some ⟨some tEmpty, some tEmpty⟩, some ⟨some tBkCols⟩⟩

/-- A pre-run destination user row. -/
def uRow9 : UserRow := ⟨.int 9, .text "Z", .int 1, .null, .null, .null⟩

/-- A destination that already holds data before a run. -/
def preState : DState :=
  { emptyState with
    users := [uRow9],
    alliance_list := [⟨.int 3, .text "A", .null⟩],
    bear_notifications := [⟨.int 4, .int 11, .parsed (.text "2024-01-01 00:00:00")⟩] }

/-- The timed copy of `preState.users` as `_backup_table` snapshots it: the
stored row carries its own pre-run `updated_at`. -/
def tSnapUsers : List (Timed UserRow) :=
  [⟨uRow9, .parsed (.text "2024-01-01 00:00:00")⟩]

/-- The spec's concrete v3 scenario: two users, one alliance, every other
table present and empty. -/
def v3ScenarioDir : V3Dir :=
  ⟨some ⟨some ⟨[], [[.int 1, .text "Alice", .int 10, .null, .null, .text "5"],
                    [.int 2, .text "Bob", .int 7, .null, .null, .text "5"]]⟩⟩,
   some ⟨some ⟨[], [[.int 5, .text "Vikings"]]⟩, some tEmpty⟩,
   some ⟨some tEmpty, some tEmpty⟩,
   some ⟨some tEmpty, some tEmpty⟩,
   some ⟨some tEmpty, some tEmpty⟩⟩

/-! ## Claim theorems -/

/-- C1 (amended): if any table-family migration raises during the
transactional migrating phase of `migrate_v4`, the run returns
`success = False` and the destination's data columns equal the pre-run
state exactly.  When `_rollback`'s deletes pass the foreign-key checks, the
success rollback line is appended and the three snapshotted tables are
re-created from their snapshots, each restored row keeping its data columns
but taking `updated_at = ` the rollback time (`base.py`'s `save` override
runs on the re-`create`); when a pre-run child row references a snapshotted
row, a delete raises, `_rollback`'s own transaction rolls back leaving the
destination untouched, and the failure line is appended instead. -/
theorem migrate_v4_atomic_rollback :
    (∀ (d : V4Dir) (st : DState) (now : Nat) (em : List String × MigErr),
      v4Plans d now = .error em →
      (MigrationButton.migrate_v4 (some d) st now).success = false ∧
      (MigrationButton.migrate_v4 (some d) st now).state = st ∧
      (MigrationButton.migrate_v4 (some d) st now).messages
        = em.1 ++ [if rollbackSucceeds st then
            "✗ Migration failed - Successfully rolled back changes"
          else "✗ Migration failed - Rollback also failed"]) ∧
    (∀ (α : Type) (snap : List (Timed α)) (now : Nat),
      (restoreTable snap now).map Timed.data = snap.map Timed.data ∧
      ∀ r ∈ restoreTable snap now, r.updated_at = .now now) := by
  constructor
  · intro d st now em h
    cases hr : rollbackSucceeds st <;> simp [MigrationButton.migrate_v4, h, hr]
  · intro α snap now
    refine ⟨?_, ?_⟩
    · induction snap with
      | nil => rfl
      | cons x xs ih => simp only [restoreTable, List.map_cons] at ih ⊢; rw [ih]
    · intro r hr
      rcases List.mem_map.1 hr with ⟨x, _, rfl⟩
      rfl

/-- Witness for C1: a v4 source with `users.sqlite` missing fails; a
destination holding a user, an alliance and a bear notification (and no
referencing child rows, so the rollback deletes pass) keeps its data
columns and gets the success rollback line; the snapshotted timed user row
is restored with its data intact and `updated_at` stamped with the rollback
time. -/
theorem migrate_v4_atomic_rollback_witness :
    (v4Plans atomDir 0 = .error ([], .db "Database file not found: users.sqlite") ∧
     ((MigrationButton.migrate_v4 (some atomDir) preState 0).success = false ∧
      (MigrationButton.migrate_v4 (some atomDir) preState 0).state = preState ∧
      (MigrationButton.migrate_v4 (some atomDir) preState 0).messages
        = [] ++ [if rollbackSucceeds preState then
            "✗ Migration failed - Successfully rolled back changes"
          else "✗ Migration failed - Rollback also failed"])) ∧
    ((restoreTable tSnapUsers 5).map Timed.data = tSnapUsers.map Timed.data ∧
     ∀ r ∈ restoreTable tSnapUsers 5, r.updated_at = .now 5) :=
  ⟨⟨rfl, migrate_v4_atomic_rollback.1 atomDir preState 0
      ([], .db "Database file not found: users.sqlite") rfl⟩,
   migrate_v4_atomic_rollback.2 UserRow tSnapUsers 5⟩

/-- Counterexample for C1 as stated: the run at `atomDir` over `preState`
fails, its rollback path succeeds, and `_rollback` re-creates the
snapshotted `users` rows — but the restore stamps `updated_at` with the
rollback time (`base.py`'s `save` override runs on each re-`create`), so
the restored timed row does not equal its pre-run value and the destination
does not equal the pre-run state exactly. -/
theorem rollback_restore_bumps_updated_at :
    (MigrationButton.migrate_v4 (some atomDir) preState 0).success = false ∧
    rollbackSucceeds preState = true ∧
    restoreTable tSnapUsers 5 ≠ tSnapUsers := by decide

/-- C4: the spec's concrete v3 scenario migrates exactly the two users (fid
1 and 2, both with alliance `"5"`) and the one alliance (5, "Vikings"),
succeeds, and reports "Migrated 2 users" and "Migrated 1 alliances". -/
theorem migrate_v3_concrete_scenario :
    (MigrationButton.migrate_v3 (some v3ScenarioDir) emptyState).success = true ∧
    (MigrationButton.migrate_v3 (some v3ScenarioDir) emptyState).state.users
      = [⟨.int 1, .text "Alice", .int 10, .null, .null, .text "5"⟩,
         ⟨.int 2, .text "Bob", .int 7, .null, .null, .text "5"⟩] ∧
    (MigrationButton.migrate_v3 (some v3ScenarioDir) emptyState).state.alliance_list
      = [⟨.int 5, .text "Vikings", .null⟩] ∧
    "Migrated 2 users" ∈ (MigrationButton.migrate_v3 (some v3ScenarioDir) emptyState).messages ∧
    "Migrated 1 alliances" ∈ (MigrationButton.migrate_v3 (some v3ScenarioDir) emptyState).messages := by
  decide

/-- Counterexample for C5: a base directory that exists but has had all its
files removed is classified `unknown`, not `none` — `none` is reserved for a
directory that does not exist at all. -/
theorem detect_all_files_removed_not_none :
    (MigrationButton.detect_database_version [oldDataPath]).1 = "unknown" ∧
    (MigrationButton.detect_database_version [oldDataPath]).1 ≠ "none" := by
  decide

/-- C5 (amended): exactly the 5 v3 files give `v3`; adding the 3 v4-only
files gives `v4`; a nonexistent directory gives `none`; a directory with
only 2 of the 5 required files gives `unknown`; an existing directory with
all files removed gives `unknown`. -/
theorem detect_database_version_cases :
    MigrationButton.detect_database_version
        (oldDataPath :: v3Files.map (joinPath oldDataPath)) = ("v3", oldDataPath) ∧
    MigrationButton.detect_database_version
        (oldDataPath :: v4Files.map (joinPath oldDataPath)) = ("v4", oldDataPath) ∧
    MigrationButton.detect_database_version [] = ("none", oldDataPath) ∧
    MigrationButton.detect_database_version
        [oldDataPath, joinPath oldDataPath "users.sqlite",
         joinPath oldDataPath "alliance.sqlite"] = ("unknown", oldDataPath) ∧
    MigrationButton.detect_database_version [oldDataPath] = ("unknown", oldDataPath) := by
  decide

/-- C10: the detector checks v4, then v3, then v2 — a directory holding the
v2 combined file plus the full v3 set (but not the full v4 set) is `v3`, and
one holding the full v4 set is `v4` regardless of `gift_db.sqlite`. -/
theorem detect_version_precedence :
    (∀ fs : List String, oldDataPath ∈ fs →
      (∀ f ∈ v3Files, joinPath oldDataPath f ∈ fs) →
      joinPath oldDataPath "gift_db.sqlite" ∈ fs →
      ¬ (∀ f ∈ v4Files, joinPath oldDataPath f ∈ fs) →
      MigrationButton.detect_database_version fs = ("v3", oldDataPath)) ∧
    (∀ fs : List String, oldDataPath ∈ fs →
      (∀ f ∈ v4Files, joinPath oldDataPath f ∈ fs) →
      MigrationButton.detect_database_version fs = ("v4", oldDataPath)) := by
  constructor
  · intro fs h0 h3 _ h4
    unfold MigrationButton.detect_database_version
    rw [if_neg (by simp [h0]), if_neg (by simpa using h4), if_pos (by simpa using h3)]
  · intro fs h0 h4
    unfold MigrationButton.detect_database_version
    rw [if_neg (by simp [h0]), if_pos (by simpa using h4)]

/-- Witness for C10: both precedence scenarios at concrete directories. -/
theorem detect_version_precedence_witness :
    MigrationButton.detect_database_version
        (oldDataPath :: joinPath oldDataPath "gift_db.sqlite"
          :: v3Files.map (joinPath oldDataPath)) = ("v3", oldDataPath) ∧
    MigrationButton.detect_database_version
        (oldDataPath :: joinPath oldDataPath "gift_db.sqlite"
          :: v4Files.map (joinPath oldDataPath)) = ("v4", oldDataPath) :=
  ⟨detect_version_precedence.1 _ (by decide) (by decide) (by decide) (by decide),
   detect_version_precedence.2 _ (by decide) (by decide)⟩

/-- Counterexample for C9: `DatabaseMigration._get_connection` performs no
existence check — on a path that does not exist it returns a connection
without raising, caches it, and `sqlite3.connect` creates the file. -/
theorem dm_get_connection_creates_and_caches :
    DatabaseMigration.get_connection ⟨[], []⟩ "ghost.sqlite"
      = ⟨["ghost.sqlite"], ["ghost.sqlite"]⟩ := by
  decide

/-- C9 (amended): `MigrationButton._get_connection` fails with
`DatabaseError` on a nonexistent path (touching neither cache nor
filesystem, as it returns before connecting), while
`DatabaseMigration._get_connection` never fails: it always caches the path,
and creates the file when the path does not exist. -/
theorem connection_pool_contract :
    (∀ (s : PoolState) (p : String), p ∉ s.fs →
      MigrationButton.get_connection s p
        = .error ("Database file not found: " ++ p)) ∧
    (∀ (s : PoolState) (p : String),
      p ∈ (DatabaseMigration.get_connection s p).cache ∧
      (p ∉ s.fs → p ∉ s.cache →
        (DatabaseMigration.get_connection s p).fs = s.fs ++ [p])) := by
  constructor
  · intro s p h
    simp [MigrationButton.get_connection, h]
  · intro s p
    constructor
    · by_cases hc : p ∈ s.cache
      · simp [DatabaseMigration.get_connection, hc]
      · simp [DatabaseMigration.get_connection, hc]
    · intro hf hc
      simp [DatabaseMigration.get_connection, hc, hf]

/-- Witness for C9: concrete pool states exercising both halves. -/
theorem connection_pool_contract_witness :
    MigrationButton.get_connection ⟨["a.sqlite"], []⟩ "b.sqlite"
      = .error ("Database file not found: " ++ "b.sqlite") ∧
    "b.sqlite" ∈ (DatabaseMigration.get_connection ⟨["a.sqlite"], []⟩ "b.sqlite").cache ∧
    (DatabaseMigration.get_connection ⟨["a.sqlite"], []⟩ "b.sqlite").fs = ["a.sqlite"] ++ ["b.sqlite"] :=
  ⟨connection_pool_contract.1 ⟨["a.sqlite"], []⟩ "b.sqlite" (by decide),
   (connection_pool_contract.2 ⟨["a.sqlite"], []⟩ "b.sqlite").1,
   (connection_pool_contract.2 ⟨["a.sqlite"], []⟩ "b.sqlite").2 (by decide) (by decide)⟩

/-! ## Inversion helpers for membership-style claims -/

theorem mem_mapRows {α : Type} {f : DbRow → Except MigErr α} :
    ∀ {rows : List DbRow} {xs : List α}, mapRows f rows = .ok xs →
      ∀ x ∈ xs, ∃ r ∈ rows, f r = .ok x := by
  intro rows
  induction rows with
  | nil =>
    intro xs h x hx
    simp only [mapRows] at h
    cases h
    simp at hx
  | cons r rs ih =>
    intro xs h x hx
    simp only [mapRows] at h
    cases hf : f r with
    | error e => rw [hf] at h; simp [Bind.bind, Except.bind] at h
    | ok y =>
      rw [hf] at h
      cases hm : mapRows f rs with
      | error e => rw [hm] at h; simp [Bind.bind, Except.bind] at h
      | ok ys =>
        rw [hm] at h
        simp only [Bind.bind, Except.bind, pure, Except.pure, Except.ok.injEq] at h
        subst h
        rcases List.mem_cons.1 hx with h1 | h1
        · exact ⟨r, by simp, by rw [hf, h1]⟩
        · rcases ih hm x h1 with ⟨r2, hr2, hfr2⟩
          exact ⟨r2, by simp [hr2], hfr2⟩

theorem giftCodeRowV2_status {r : DbRow} {g : GiftCodeRow}
    (h : giftCodeRowV2 r = .ok g) : g.validation_status = .text "pending" := by
  unfold giftCodeRowV2 at h
  cases h0 : idx r 0 with
  | error e => rw [h0] at h; simp [Bind.bind, Except.bind] at h
  | ok a =>
    rw [h0] at h
    cases h1 : idx r 1 with
    | error e => rw [h1] at h; simp [Bind.bind, Except.bind] at h
    | ok b =>
      rw [h1] at h
      simp only [Bind.bind, Except.bind, pure, Except.pure, Except.ok.injEq] at h
      subst h
      rfl

theorem v2PlansMB_gcodes {aid : Int} {f : V2File} {p : V2Plan}
    (h : v2PlansMB aid f = .ok p) :
    ∃ t, f.gift_codes = some t ∧ mapRows giftCodeRowV2 t.rows = .ok p.gcodes := by
  unfold v2PlansMB at h
  cases hu : f.users with
  | none => rw [hu] at h; simp [getUsersV2, Bind.bind, Except.bind] at h
  | some ut =>
    rw [hu] at h
    simp only [getUsersV2, Bind.bind, Except.bind] at h
    cases hg : f.gift_codes with
    | none => rw [hg] at h; simp [getTable, Bind.bind, Except.bind] at h
    | some gt =>
      rw [hg] at h
      simp only [getTable, Bind.bind, Except.bind] at h
      cases hm : mapRows giftCodeRowV2 gt.rows with
      | error e => rw [hm] at h; simp [Bind.bind, Except.bind] at h
      | ok gs =>
        rw [hm] at h
        simp only [Bind.bind, Except.bind] at h
        cases hut : f.user_giftcodes with
        | none => rw [hut] at h; simp [getTable, Bind.bind, Except.bind] at h
        | some utt =>
          rw [hut] at h
          simp only [getTable, Bind.bind, Except.bind] at h
          cases hmu : mapRows userGiftCodeRowOf utt.rows with
          | error e => rw [hmu] at h; simp [Bind.bind, Except.bind] at h
          | ok ugs =>
            rw [hmu] at h
            simp only [Bind.bind, Except.bind, pure, Except.pure, Except.ok.injEq] at h
            exact ⟨gt, rfl, by rw [hm, ← h]⟩

/-! ## Fixtures for the gift-code and alliance claims -/

/-- A v3 source whose `gift_codes` table is the parameter and whose other
tables are present and empty. -/
def giftTableV3Dir (t : SrcTable) : V3Dir :=
  ⟨some ⟨some tEmpty⟩, some ⟨some tEmpty, some tEmpty⟩, some ⟨some t, some tEmpty⟩,
   some ⟨some tEmpty, some tEmpty⟩, some ⟨some tEmpty, some tEmpty⟩⟩

/-- A v4 source whose `gift_codes` table is the parameter and whose other
tables are present and empty (with the required v4 columns). -/
def giftTableV4Dir (t : SrcTable) : V4Dir :=
  ⟨some ⟨some tEmpty⟩, some ⟨some tEmpty, some tEmpty⟩, some ⟨some t, some tEmpty⟩,
   some ⟨some tEmpty, some tEmpty⟩, some ⟨some tEmpty, some tEmpty⟩,
   some ⟨some tIdCols⟩, some ⟨some tEmpty, some tEmpty⟩, some ⟨some tBkCols⟩⟩

/-- A v3 source whose alliance file holds one 2-column `alliance_list` row
`(a, n)` and one 2-column `alliancesettings` row `(a, c)`. -/
def allianceShortfallDir (a n c : DbValue) : V3Dir :=
  ⟨some ⟨some tEmpty⟩, some ⟨some ⟨[], [[a, n]]⟩, some ⟨[], [[a, c]]⟩⟩,
   some ⟨some tEmpty, some tEmpty⟩, some ⟨some tEmpty, some tEmpty⟩,
   some ⟨some tEmpty, some tEmpty⟩⟩

/-- A v2 source as `DatabaseMigration.migrate_v2` reads it, carrying one
gift-code row whose source `validation_status` is `"invalid"`. -/
def dmV2StatusFile : V2DMFile :=
  ⟨some [], some tEmpty, some tEmpty,
   some ⟨[], [[.text "XMAS", .text "2024-01-01", .text "invalid"]]⟩, some tEmpty⟩

/-- Counterexample for C7: the other v2 migration path,
`DatabaseMigration.migrate_v2` (which delegates to `_migrate_giftcodes`),
does not force `'pending'`: a source row carrying `validation_status =
"invalid"` is written to the destination with `"invalid"`. -/
theorem dm_migrate_v2_preserves_status :
    (DatabaseMigration.migrate_v2 1 (some dmV2StatusFile) emptyState).state.gift_codes
      = [⟨.text "XMAS", .text "2024-01-01", .text "invalid"⟩] ∧
    DbValue.text "invalid" ≠ DbValue.text "pending" := by
  decide

/-- C7 (amended): `MigrationButton.migrate_v2` hard-codes
`validation_status = 'pending'` for every migrated gift code regardless of
the source value, while the shared `_migrate_giftcodes` used by the v3/v4
paths preserves a present source value (defaulting to `'pending'` only when
the column is absent); `DatabaseMigration.migrate_v2` uses the preserving
variant. -/
theorem giftcode_status_per_generation :
    (∀ (a b : DbValue) (rest : List DbValue),
      giftCodeRowV2 (a :: b :: rest) = .ok ⟨a, b, .text "pending"⟩) ∧
    (∀ (a b s : DbValue) (rest : List DbValue),
      giftCodeRowOf (a :: b :: s :: rest) = .ok ⟨a, b, s⟩) ∧
    (∀ (aid : Int) (f : V2File) (g : GiftCodeRow),
      g ∈ (MigrationButton.migrate_v2 aid (some f) emptyState).state.gift_codes →
      g.validation_status = .text "pending") ∧
    (∀ (rows : List DbRow) (g : GiftCodeRow),
      g ∈ (MigrationButton.migrate_v3 (some (giftTableV3Dir ⟨[], rows⟩))
            emptyState).state.gift_codes →
      ∃ r ∈ rows, giftCodeRowOf r = .ok g) ∧
    (∀ (rows : List DbRow) (now : Nat) (g : GiftCodeRow),
      g ∈ (MigrationButton.migrate_v4 (some (giftTableV4Dir ⟨[], rows⟩))
            emptyState now).state.gift_codes →
      ∃ r ∈ rows, giftCodeRowOf r = .ok g) := by
  refine ⟨?_, ?_, ?_, ?_, ?_⟩
  · intro a b rest; rfl
  · intro a b s rest; rfl
  · intro aid f g hg
    rcases hp : v2PlansMB aid f with e | p
    · rw [MigrationButton.migrate_v2] at hg
      simp [hp, emptyState] at hg
    · rw [MigrationButton.migrate_v2] at hg
      simp only [hp, v2Apply] at hg
      rcases mem_writeAll hg with h | h
      · simp [emptyState] at h
      · rcases v2PlansMB_gcodes hp with ⟨t, _, hm⟩
        rcases mem_mapRows hm g h with ⟨r, _, hfr⟩
        exact giftCodeRowV2_status hfr
  · intro rows g hg
    rcases hm : mapRows giftCodeRowOf rows with e | gs
    · simp [MigrationButton.migrate_v3, v3Plans, giftTableV3Dir, getConn, getTable,
        alliancesPlan, giftcodesPlan, changesPlan, settingsPlan, mapRows, hm,
        tEmpty, emptyState, Bind.bind, Except.bind, Except.mapError] at hg
    · simp only [MigrationButton.migrate_v3, v3Plans, giftTableV3Dir, getConn, getTable,
        alliancesPlan, giftcodesPlan, changesPlan, settingsPlan, mapRows, hm,
        tEmpty, Bind.bind, Except.bind, pure, Except.pure, Except.mapError, v3Apply] at hg
      rcases mem_writeAll hg with h | h
      · simp [emptyState] at h
      · exact mem_mapRows hm g h
  · intro rows now g hg
    rcases hm : mapRows giftCodeRowOf rows with e | gs
    · simp [MigrationButton.migrate_v4, v4Plans, v4OuterPlans, giftTableV4Dir,
        getConn, getTable, usersV4Plan, alliancesPlan, giftcodesPlan, changesPlan,
        settingsPlan, mapRows, hm, tEmpty, tIdCols, tBkCols, emptyState,
        rollbackSucceeds, Bind.bind, Except.bind, Except.mapError] at hg
    · simp only [MigrationButton.migrate_v4, v4Plans, v4OuterPlans, giftTableV4Dir,
        getConn, getTable, usersV4Plan, alliancesPlan, giftcodesPlan, changesPlan,
        settingsPlan, idChannelPlan, bearPlan, backupPlan, planPrefix, mapRows, hm,
        tEmpty, tIdCols, tBkCols, Bind.bind, Except.bind, pure, Except.pure,
        Except.mapError, v4Apply] at hg
      rcases mem_writeAll hg with h | h
      · simp [emptyState] at h
      · exact mem_mapRows hm g h

/-- Witness for C7: a v2 source row carrying `validation_status = "used"`
is migrated by `MigrationButton.migrate_v2` with `'pending'`, and the v3
path preserves a concrete `"invalid"`. -/
theorem giftcode_status_per_generation_witness :
    giftCodeRowV2 [.text "C1", .text "d", .text "used"]
      = .ok ⟨.text "C1", .text "d", .text "pending"⟩ ∧
    giftCodeRowOf [.text "C1", .text "d", .text "invalid"]
      = .ok ⟨.text "C1", .text "d", .text "invalid"⟩ ∧
    (⟨.text "C1", .text "d", .text "pending"⟩ : GiftCodeRow).validation_status
      = .text "pending" :=
  ⟨giftcode_status_per_generation.1 (.text "C1") (.text "d") [.text "used"],
   giftcode_status_per_generation.2.1 (.text "C1") (.text "d") (.text "invalid") [],
   giftcode_status_per_generation.2.2.1 7
     (⟨some [], some ⟨[], [[.text "C1", .text "d", .text "used"]]⟩, some tEmpty⟩ : V2File)
     ⟨.text "C1", .text "d", .text "pending"⟩ (by decide)⟩

/-- C8: a 2-column alliance-settings row gets `interval = 0` and a 2-column
alliance row gets `discord_server_id = NULL`, while rows carrying the extra
column keep its value; end to end, migrating such short rows writes exactly
those defaults. -/
theorem column_shortfall_defaults :
    (∀ a c : DbValue, allianceSettingsRowOf [a, c] = .ok ⟨a, c, .int 0⟩) ∧
    (∀ (a c i : DbValue) (rest : List DbValue),
      allianceSettingsRowOf (a :: c :: i :: rest) = .ok ⟨a, c, i⟩) ∧
    (∀ a n : DbValue, allianceRowOf [a, n] = .ok ⟨a, n, .null⟩) ∧
    (∀ (a n d : DbValue) (rest : List DbValue),
      allianceRowOf (a :: n :: d :: rest) = .ok ⟨a, n, d⟩) ∧
    (∀ (a n c : DbValue) (st : DState),
      (MigrationButton.migrate_v3 (some (allianceShortfallDir a n c)) st).state.alliance_list
        = writeAll allianceKey [⟨a, n, .null⟩] st.alliance_list ∧
      (MigrationButton.migrate_v3 (some (allianceShortfallDir a n c)) st).state.alliancesettings
        = writeAll allianceSettingsKey [⟨a, c, .int 0⟩] st.alliancesettings) := by
  refine ⟨?_, ?_, ?_, ?_, ?_⟩
  · intro a c; rfl
  · intro a c i rest; rfl
  · intro a n; rfl
  · intro a n d rest; rfl
  · intro a n c st
    constructor <;>
      simp [MigrationButton.migrate_v3, v3Plans, allianceShortfallDir, getConn,
        getTable, alliancesPlan, giftcodesPlan, changesPlan, settingsPlan, mapRows,
        allianceRowOf, allianceSettingsRowOf, idx, tEmpty, Bind.bind, Except.bind,
        pure, Except.pure, Except.mapError, v3Apply]

/-! ## The v4 users family, characterized -/

/-- The destination row the v4 users loop builds from a source row (on the
`len > 5` rows the loop can process without raising). -/
def userRowOf (r : DbRow) : UserRow :=
  ⟨idxOpt r 0, idxOpt r 1, idxOpt r 2, idxOpt r 3, idxOpt r 4, idxOpt r 5⟩

theorem idx_of_lt {r : DbRow} {i : Nat} (h : i < r.length) :
    idx r i = .ok (idxOpt r i) := by
  unfold idx idxOpt
  cases hg : r.get? i with
  | none => exact absurd (List.get?_eq_none.1 hg) (by omega)
  | some v => rfl

/-- A users source row `_validate_data` would accept (fid 1). -/
def wRow1 : DbRow := [.int 1, .text "A", .int 3, .null, .null, .text "5"]

/-- A users source row `_validate_data` would reject: its fid is the string
`"x"`. -/
def wRowBad : DbRow := [.text "x", .text "B", .int 4, .null, .null, .text "5"]

/-- A users source row `_validate_data` would accept (fid 2). -/
def wRow2 : DbRow := [.int 2, .text "C", .int 5, .null, .null, .text "5"]

/-- C3 (code bug): the v4 users loop never rejects a record.  The call site
tests `if self._validate_data('users', user_data)` without `await`ing the
async method, so the test value is a coroutine object — always truthy — and
on every processable source row the loop calls `User.create_or_update` and
logs the row as successfully processed; the rejection branch (skip, reason
warning, failed-record line) is dead code.  First conjunct: the loop's plan
on any table of processable rows upserts every row and emits one ok-record
line per row.  Remaining conjuncts, at the claim's failing input: the
embedded validator itself rejects the middle row (`fid = "x"`), yet the
plan passes that row to the destination write and success-logs it — in the
running program the non-integer fid then violates the `users` INTEGER
PRIMARY KEY at the write, aborting the whole run, so the claim's behavior
(every valid row migrated, the invalid row excluded, exactly one rejection
reported) never occurs. -/
theorem v4_validation_never_awaited :
    (∀ (rows : List DbRow), (∀ r ∈ rows, 5 < r.length) →
      usersV4Plan rows
        = .ok (rows.map userRowOf,
               rows.map (fun r => LogEntry.recordOk (idxOpt r 0).pyStr))) ∧
    MigrationButton.validate_data_users (idxOpt wRowBad 0) (idxOpt wRowBad 1)
      (idxOpt wRowBad 2) = false ∧
    usersV4Plan [wRow1, wRowBad, wRow2]
      = .ok ([userRowOf wRow1, userRowOf wRowBad, userRowOf wRow2],
             [.recordOk "1", .recordOk "x", .recordOk "2"]) := by
  refine ⟨?_, by decide, rfl⟩
  intro rows h
  induction rows with
  | nil => rfl
  | cons r rs ih =>
    have hr : 5 < r.length := h r (by simp)
    have h0 := idx_of_lt (show (0:Nat) < r.length by omega)
    have h1 := idx_of_lt (show (1:Nat) < r.length by omega)
    have h2 := idx_of_lt (show (2:Nat) < r.length by omega)
    have h3 := idx_of_lt (show (3:Nat) < r.length by omega)
    have h4 := idx_of_lt (show (4:Nat) < r.length by omega)
    have h5 := idx_of_lt (show (5:Nat) < r.length by omega)
    have ihr := ih (fun x hx => h x (by simp [hx]))
    simp only [usersV4Plan, h0, h1, h2, h3, h4, h5, Bind.bind, Except.bind, ihr]
    simp [userRowOf]

/-- Witness for C3's universally quantified conjunct, at the failing
input. -/
theorem v4_validation_never_awaited_witness :
    usersV4Plan [wRow1, wRowBad, wRow2]
      = .ok ([wRow1, wRowBad, wRow2].map userRowOf,
             [wRow1, wRowBad, wRow2].map
               (fun r => LogEntry.recordOk (idxOpt r 0).pyStr)) :=
  v4_validation_never_awaited.1 [wRow1, wRowBad, wRow2] (by decide)

/-! ## The bear-time family, characterized -/

/-- The business ids of the freshly migrated parents, in loop order
(`migrated_notifications` projected to `notification_id`). -/
def parentIds (rows : List DbRow) : List DbValue := rows.map (fun r => idxOpt r 1)

/-- The destination row the notifications loop builds from a processable
source row. -/
def bearNotifOfValid (now : Nat) (r : DbRow) : BearNotificationRow :=
  ⟨idxOpt r 1, idxOpt r 2,
   if (idxOpt r 3).truthy then .parsed (idxOpt r 3) else .now now⟩

/-- The destination row the embeds loop builds from a detail row whose
parent lookup succeeds. -/
def bearEmbedOfValid (migrated : List DbValue) (now : Nat) (r : DbRow) :
    BearNotificationEmbedRow :=
  ⟨(migrated.find? (fun n => n == idxOpt r 1)).getD .null, idxOpt r 2,
   if (idxOpt r 3).truthy then .parsed (idxOpt r 3) else .now now⟩

theorem strptime_of_ok {v : DbValue} (h : strptimeOk v = true) :
    strptime v = .ok (.parsed v) := by
  cases v with
  | int i => simp [strptimeOk] at h
  | text s => simp only [strptimeOk] at h; simp [strptime, h]
  | null => simp [strptimeOk] at h

theorem bearNotificationRowOf_ok {r : DbRow} (h : 2 < r.length)
    (ht : (idxOpt r 3).truthy = true → strptimeOk (idxOpt r 3) = true) (now : Nat) :
    bearNotificationRowOf now r = .ok (bearNotifOfValid now r) := by
  cases htr : (idxOpt r 3).truthy with
  | true =>
    simp [bearNotificationRowOf, idx_of_lt (show 1 < r.length by omega),
      idx_of_lt h, htr, strptime_of_ok (ht htr), bearNotifOfValid,
      Bind.bind, Except.bind, pure, Except.pure]
  | false =>
    simp [bearNotificationRowOf, idx_of_lt (show 1 < r.length by omega),
      idx_of_lt h, htr, bearNotifOfValid, Bind.bind, Except.bind, pure, Except.pure]

theorem bearEmbedRowOf_found {migrated : List DbValue} {r : DbRow} {p : DbValue}
    (now : Nat) (hf : migrated.find? (fun n => n == idxOpt r 1) = some p)
    (hlen : 2 < r.length)
    (ht : (idxOpt r 3).truthy = true → strptimeOk (idxOpt r 3) = true) :
    bearEmbedRowOf migrated now r = .ok (bearEmbedOfValid migrated now r) := by
  match migrated with
  | [] => simp at hf
  | m :: ms =>
    cases htr : (idxOpt r 3).truthy with
    | true =>
      simp [bearEmbedRowOf, idx_of_lt (show 1 < r.length by omega),
        idx_of_lt hlen, hf, htr, strptime_of_ok (ht htr), bearEmbedOfValid,
        Bind.bind, Except.bind, pure, Except.pure]
    | false =>
      simp [bearEmbedRowOf, idx_of_lt (show 1 < r.length by omega),
        idx_of_lt hlen, hf, htr, bearEmbedOfValid, Bind.bind, Except.bind,
        pure, Except.pure]

theorem bearEmbedRowOf_orphan {migrated : List DbValue} {r : DbRow}
    (now : Nat) (hf : migrated.find? (fun n => n == idxOpt r 1) = none)
    (hlen : 1 < r.length) :
    bearEmbedRowOf migrated now r = .error .stopIteration := by
  match migrated with
  | [] => rfl
  | m :: ms =>
    simp only [bearEmbedRowOf, idx_of_lt hlen, Bind.bind, Except.bind, hf]

theorem planPrefix_ok {α : Type} {f : DbRow → Except MigErr α} {g : DbRow → α} :
    ∀ {rows : List DbRow}, (∀ r ∈ rows, f r = .ok (g r)) →
      planPrefix f rows = (rows.map g, none) := by
  intro rows
  induction rows with
  | nil => intro _; rfl
  | cons r rs ih =>
    intro h
    simp only [planPrefix, h r (by simp), ih (fun x hx => h x (by simp [hx])),
      List.map_cons]

theorem planPrefix_break {α : Type} {f : DbRow → Except MigErr α} {g : DbRow → α}
    {e : MigErr} {orphan : DbRow} :
    ∀ {pre rest : List DbRow}, (∀ r ∈ pre, f r = .ok (g r)) →
      f orphan = .error e →
      planPrefix f (pre ++ orphan :: rest) = (pre.map g, some e) := by
  intro pre
  induction pre with
  | nil => intro rest _ ho; simp [planPrefix, ho]
  | cons r rs ih =>
    intro rest h ho
    have ih2 := @ih rest (fun x hx => h x (by simp [hx])) ho
    rw [List.cons_append]
    unfold planPrefix
    simp only [h r (by simp), ih2, List.map_cons]

/-- The bear block on a source whose embeds table holds an orphan detail
row after `pre` resolvable ones: the parents all migrate, the details
before the orphan migrate, the orphan raises `StopIteration` which the
block reports as `✗ Bear time migration failed: ` — the rows after it are
dropped. -/
theorem bearPlan_orphan {nt et : SrcTable} {pre rest : List DbRow} {orphan : DbRow}
    (now : Nat) (hrows : et.rows = pre ++ orphan :: rest)
    (hn : ∀ r ∈ nt.rows, 2 < r.length ∧
      ((idxOpt r 3).truthy = true → strptimeOk (idxOpt r 3) = true))
    (hpre : ∀ r ∈ pre, 2 < r.length ∧
      ((parentIds nt.rows).find? (fun n => n == idxOpt r 1)).isSome = true ∧
      ((idxOpt r 3).truthy = true → strptimeOk (idxOpt r 3) = true))
    (horphlen : 1 < orphan.length)
    (horph : (parentIds nt.rows).find? (fun n => n == idxOpt orphan 1) = none) :
    bearPlan (some ⟨some nt, some et⟩) now
      = (nt.rows.map (bearNotifOfValid now),
         pre.map (bearEmbedOfValid (parentIds nt.rows) now),
         ["✓ Migrated " ++ toString nt.rows.length ++ " bear notifications",
          "✗ Bear time migration failed: "]) := by
  have hpp : planPrefix (bearNotificationRowOf now) nt.rows
      = (nt.rows.map (bearNotifOfValid now), none) :=
    planPrefix_ok (fun r hr => bearNotificationRowOf_ok (hn r hr).1 (hn r hr).2 now)
  have hmig : (nt.rows.map (bearNotifOfValid now)).map
        (fun n => n.notification_id) = parentIds nt.rows := by
    simp [parentIds, List.map_map, Function.comp, bearNotifOfValid]
  have hpe : planPrefix
        (bearEmbedRowOf (parentIds nt.rows) now) et.rows
      = (pre.map (bearEmbedOfValid (parentIds nt.rows) now), some .stopIteration) := by
    rw [hrows]
    refine planPrefix_break ?_ (bearEmbedRowOf_orphan now horph horphlen)
    intro r hr
    rcases Option.isSome_iff_exists.1 (hpre r hr).2.1 with ⟨p, hp⟩
    exact bearEmbedRowOf_found now hp (hpre r hr).1 (hpre r hr).2.2
  simp only [bearPlan, hpp, hmig, hpe, MigErr.msg, String.append_empty]

/-- A v4 source whose beartime file is the parameter and whose other tables
are present and empty (with the required v4 columns). -/
def bearDirOf (nt et : SrcTable) : V4Dir :=
  ⟨some ⟨some tEmpty⟩, some ⟨some tEmpty, some tEmpty⟩, some ⟨some tEmpty, some tEmpty⟩,
   some ⟨some tEmpty, some tEmpty⟩, some ⟨some tEmpty, some tEmpty⟩,
   some ⟨some tIdCols⟩, some ⟨some nt, some et⟩, some ⟨some tBkCols⟩⟩

/-- The claim's scenario: one parent (business id 10), one orphan detail
row referencing the absent business id 99, then one resolvable detail row. -/
def orphanScenarioDir : V4Dir :=
  bearDirOf ⟨[], [[.int 1, .int 10, .int 500]]⟩
    ⟨[], [[.int 1, .int 99, .text "T1"], [.int 2, .int 10, .text "T2"]]⟩

/-- Counterexample for C6: the orphan detail row is not handled as a
validation failure — the `StopIteration` it raises aborts the whole
bear-time family with a `✗ Bear time migration failed` line, so the
remaining detail row (business id 10, whose parent exists) is never
migrated: the destination embeds table stays empty while its parent was
migrated and the run reports overall success. -/
theorem orphan_embed_aborts_family :
    (MigrationButton.migrate_v4 (some orphanScenarioDir) emptyState 0).success = true ∧
    (MigrationButton.migrate_v4 (some orphanScenarioDir) emptyState 0).state.bear_notifications
      = [⟨.int 10, .int 500, .now 0⟩] ∧
    (MigrationButton.migrate_v4 (some orphanScenarioDir) emptyState 0).state.bear_notification_embeds
      = [] ∧
    "✗ Bear time migration failed: "
      ∈ (MigrationButton.migrate_v4 (some orphanScenarioDir) emptyState 0).messages := by
  decide

/-- C6 (amended): a detail row whose business-id parent is absent raises
`StopIteration`, which the family's own handler catches: the run still
completes (success), the parents and the detail rows before the orphan are
migrated, the orphan and every detail row after it are dropped, and the
family reports `✗ Bear time migration failed: ` instead of a validation
outcome.  The parents and the pre-orphan details must carry absent, falsy
or well-formed timestamp cells — a truthy malformed cell raises
`ValueError`/`TypeError` in `strptime`, aborting the family earlier with
its own message; the orphan itself needs no such condition because the
parent lookup raises before its timestamp is evaluated. -/
theorem migrate_v4_orphan_detail (nt et : SrcTable) (pre rest : List DbRow)
    (orphan : DbRow) (now : Nat) (st : DState)
    (hrows : et.rows = pre ++ orphan :: rest)
    (hn : ∀ r ∈ nt.rows, 2 < r.length ∧
      ((idxOpt r 3).truthy = true → strptimeOk (idxOpt r 3) = true))
    (hpre : ∀ r ∈ pre, 2 < r.length ∧
      ((parentIds nt.rows).find? (fun n => n == idxOpt r 1)).isSome = true ∧
      ((idxOpt r 3).truthy = true → strptimeOk (idxOpt r 3) = true))
    (horphlen : 1 < orphan.length)
    (horph : (parentIds nt.rows).find? (fun n => n == idxOpt orphan 1) = none) :
    (MigrationButton.migrate_v4 (some (bearDirOf nt et)) st now).success = true ∧
    "✗ Bear time migration failed: "
      ∈ (MigrationButton.migrate_v4 (some (bearDirOf nt et)) st now).messages ∧
    (MigrationButton.migrate_v4 (some (bearDirOf nt et)) st now).state.bear_notifications
      = writeAll bearNotificationKey (nt.rows.map (bearNotifOfValid now))
          st.bear_notifications ∧
    (MigrationButton.migrate_v4 (some (bearDirOf nt et)) st now).state.bear_notification_embeds
      = writeAll bearEmbedKey (pre.map (bearEmbedOfValid (parentIds nt.rows) now))
          st.bear_notification_embeds := by
  have hb := bearPlan_orphan now hrows hn hpre horphlen horph
  have hap : alliancesPlan ⟨some tEmpty, some tEmpty⟩
      = .ok (([], []), ["Migrated 0 alliances", "Migrated 0 alliance settings"]) := rfl
  have hgp : giftcodesPlan ⟨some tEmpty, some tEmpty⟩
      = .ok (([], []), ["Migrated 0 gift codes", "Migrated 0 user gift codes"]) := rfl
  have hcp : changesPlan ⟨some tEmpty, some tEmpty⟩
      = .ok (([], []), ["Migrated 0 furnace changes", "Migrated 0 nickname changes"]) := rfl
  have hsp : settingsPlan ⟨some tEmpty, some tEmpty⟩
      = .ok (([], []), ["Migrated 0 bot settings", "Migrated 0 admin settings"]) := rfl
  have hic : idChannelPlan (some ⟨some tIdCols⟩)
      = ([], ["✓ Migrated 0 ID channel mappings"]) := rfl
  have hbk : backupPlan (some ⟨some tBkCols⟩) now
      = ([], ["✓ Migrated 0 backup passwords"]) := rfl
  have hplans : v4Plans (bearDirOf nt et) now
      = .ok ⟨[], [], [], [], [], [], [], [], [], [], [],
          nt.rows.map (bearNotifOfValid now),
          pre.map (bearEmbedOfValid (parentIds nt.rows) now), [],
          ["✓ Migrated 0 users", "Migrated 0 alliances", "Migrated 0 alliance settings",
           "Migrated 0 gift codes", "Migrated 0 user gift codes",
           "Migrated 0 furnace changes", "Migrated 0 nickname changes",
           "Migrated 0 bot settings", "Migrated 0 admin settings",
           "✓ Migrated 0 ID channel mappings",
           "✓ Migrated " ++ toString nt.rows.length ++ " bear notifications",
           "✗ Bear time migration failed: ", "✓ Migrated 0 backup passwords"]⟩ := by
    simp only [v4Plans, v4OuterPlans, bearDirOf, getConn, getTable,
      hap, hgp, hcp, hsp, hic, hb, hbk]
    rfl
  refine ⟨?_, ?_, ?_, ?_⟩
  · simp [MigrationButton.migrate_v4, hplans]
  · simp [MigrationButton.migrate_v4, hplans]
  · simp [MigrationButton.migrate_v4, hplans, v4Apply]
  · simp [MigrationButton.migrate_v4, hplans, v4Apply]

/-- Witness for C6: the concrete orphan scenario, with an arbitrary
pre-filled destination. -/
theorem migrate_v4_orphan_detail_witness :
    (MigrationButton.migrate_v4 (some (bearDirOf ⟨[], [[.int 1, .int 10, .int 500]]⟩
        ⟨[], [[.int 1, .int 99, .text "T1"], [.int 2, .int 10, .text "T2"]]⟩))
        preState 0).success = true ∧
    "✗ Bear time migration failed: "
      ∈ (MigrationButton.migrate_v4 (some (bearDirOf ⟨[], [[.int 1, .int 10, .int 500]]⟩
          ⟨[], [[.int 1, .int 99, .text "T1"], [.int 2, .int 10, .text "T2"]]⟩))
          preState 0).messages ∧
    (MigrationButton.migrate_v4 (some (bearDirOf ⟨[], [[.int 1, .int 10, .int 500]]⟩
        ⟨[], [[.int 1, .int 99, .text "T1"], [.int 2, .int 10, .text "T2"]]⟩))
        preState 0).state.bear_notifications
      = writeAll bearNotificationKey
          ([[.int 1, .int 10, .int 500]].map (bearNotifOfValid 0))
          preState.bear_notifications ∧
    (MigrationButton.migrate_v4 (some (bearDirOf ⟨[], [[.int 1, .int 10, .int 500]]⟩
        ⟨[], [[.int 1, .int 99, .text "T1"], [.int 2, .int 10, .text "T2"]]⟩))
        preState 0).state.bear_notification_embeds
      = writeAll bearEmbedKey
          (([] : List DbRow).map (bearEmbedOfValid (parentIds [[.int 1, .int 10, .int 500]]) 0))
          preState.bear_notification_embeds :=
  migrate_v4_orphan_detail ⟨[], [[.int 1, .int 10, .int 500]]⟩
    ⟨[], [[.int 1, .int 99, .text "T1"], [.int 2, .int 10, .text "T2"]]⟩
    [] [[.int 2, .int 10, .text "T2"]] [.int 1, .int 99, .text "T1"] 0 preState
    (by decide) (by decide) (by decide) (by decide) (by decide)

/-! ## Idempotence -/

theorem bearNotificationRowOf_time {r : DbRow} (h : (idxOpt r 3).truthy = true)
    (n1 n2 : Nat) : bearNotificationRowOf n1 r = bearNotificationRowOf n2 r := by
  simp [bearNotificationRowOf, h]

theorem bearEmbedRowOf_time {migrated : List DbValue} {r : DbRow}
    (h : (idxOpt r 3).truthy = true) (n1 n2 : Nat) :
    bearEmbedRowOf migrated n1 r = bearEmbedRowOf migrated n2 r := by
  cases migrated with
  | nil => rfl
  | cons m ms => simp [bearEmbedRowOf, h]

theorem backupPasswordRowOf_time {r : DbRow} (h : (idxOpt r 2).truthy = true)
    (n1 n2 : Nat) : backupPasswordRowOf n1 r = backupPasswordRowOf n2 r := by
  simp [backupPasswordRowOf, h]

theorem planPrefix_congr {α : Type} {f g : DbRow → Except MigErr α} :
    ∀ {rows : List DbRow}, (∀ r ∈ rows, f r = g r) →
      planPrefix f rows = planPrefix g rows := by
  intro rows
  induction rows with
  | nil => intro _; rfl
  | cons r rs ih =>
    intro h
    simp only [planPrefix, h r (by simp), ih (fun x hx => h x (by simp [hx]))]

theorem bearPlan_time (f : Option BeartimeFile) (n1 n2 : Nat)
    (h : (match f with
          | none => true
          | some bf => tableTimestampsOK bf.bear_notifications 3
              && tableTimestampsOK bf.bear_notification_embeds 3) = true) :
    bearPlan f n1 = bearPlan f n2 := by
  rcases f with _ | bf
  · rfl
  · simp only [Bool.and_eq_true] at h
    obtain ⟨h1, h2⟩ := h
    rcases hbn : bf.bear_notifications with _ | t
    · simp [bearPlan, hbn]
    · rw [hbn] at h1
      have h1m : ∀ r ∈ t.rows, (idxOpt r 3).truthy = true := by
        simpa [tableTimestampsOK, List.all_eq_true] using h1
      have hpp : planPrefix (bearNotificationRowOf n1) t.rows
          = planPrefix (bearNotificationRowOf n2) t.rows :=
        planPrefix_congr (fun r hr => bearNotificationRowOf_time (h1m r hr) n1 n2)
      simp only [bearPlan, hbn, hpp]
      rcases hres : planPrefix (bearNotificationRowOf n2) t.rows with ⟨ns, e⟩
      rcases e with _ | err
      · rcases hbe : bf.bear_notification_embeds with _ | te
        · rfl
        · rw [hbe] at h2
          have h2m : ∀ r ∈ te.rows, (idxOpt r 3).truthy = true := by
            simpa [tableTimestampsOK, List.all_eq_true] using h2
          have hpe : planPrefix
                (bearEmbedRowOf (ns.map (fun n => n.notification_id)) n1) te.rows
              = planPrefix
                (bearEmbedRowOf (ns.map (fun n => n.notification_id)) n2) te.rows :=
            planPrefix_congr (fun r hr => bearEmbedRowOf_time (h2m r hr) n1 n2)
          simp only [hpe]
      · rfl

theorem backupPlan_time (f : Option BackupFile) (n1 n2 : Nat)
    (h : (match f with
          | none => true
          | some bf => tableTimestampsOK bf.backup_passwords 2) = true) :
    backupPlan f n1 = backupPlan f n2 := by
  rcases f with _ | bf
  · rfl
  · have h3 : tableTimestampsOK bf.backup_passwords 2 = true := h
    rcases hbp : bf.backup_passwords with _ | t
    · simp [backupPlan, hbp]
    · rw [hbp] at h3
      have hm : ∀ r ∈ t.rows, (idxOpt r 2).truthy = true := by
        simpa [tableTimestampsOK, List.all_eq_true] using h3
      have hpp : planPrefix (backupPasswordRowOf n1) t.rows
          = planPrefix (backupPasswordRowOf n2) t.rows :=
        planPrefix_congr (fun r hr => backupPasswordRowOf_time (hm r hr) n1 n2)
      simp only [backupPlan, hbp, hpp]

theorem v4Plans_time (d : V4Dir) (n1 n2 : Nat) (h : timestampsComplete d = true) :
    v4Plans d n1 = v4Plans d n2 := by
  unfold timestampsComplete at h
  simp only [Bool.and_eq_true] at h
  obtain ⟨hb, hk⟩ := h
  simp only [v4Plans, bearPlan_time d.beartime_sqlite n1 n2 hb,
    backupPlan_time d.backup_sqlite n1 n2 hk]

theorem v3Apply_idem (p : V3Plan) (st : DState) :
    v3Apply p (v3Apply p st) = v3Apply p st := by
  simp [v3Apply, writeAll_writeAll]

theorem v4Apply_idem (p : V4Plan) (st : DState) :
    v4Apply p (v4Apply p st) = v4Apply p st := by
  simp [v4Apply, writeAll_writeAll]

theorem upsertUserV2_eq {u : UserRow}
    (hu : u.kid = .null ∧ u.stove_lv_content = .null) :
    ∀ {l : List UserRow},
      (∀ y ∈ l, y.kid = .null ∧ y.stove_lv_content = .null) →
      upsertUserV2 u l = upsertBy userKey u l := by
  intro l
  induction l with
  | nil => intro _; rfl
  | cons y ys ih =>
    intro h
    by_cases hf : y.fid = u.fid
    · have hy := h y (by simp)
      have heq : { u with kid := y.kid, stove_lv_content := y.stove_lv_content } = u := by
        obtain ⟨f0, n0, fl0, k0, s0, a0⟩ := u
        obtain ⟨hk, hs⟩ := hu
        simp only at hk hs
        subst hk
        subst hs
        rw [hy.1, hy.2]
      simp [upsertUserV2, upsertBy, userKey, hf, heq]
    · simp [upsertUserV2, upsertBy, userKey, hf,
        ih (fun z hz => h z (by simp [hz]))]

theorem writeAllUserV2_eq :
    ∀ {rows l : List UserRow},
      (∀ u ∈ rows, u.kid = .null ∧ u.stove_lv_content = .null) →
      (∀ y ∈ l, y.kid = .null ∧ y.stove_lv_content = .null) →
      writeAllUserV2 rows l = writeAll userKey rows l := by
  intro rows
  induction rows with
  | nil => intro l _ _; rfl
  | cons r rs ih =>
    intro l hr hl
    show writeAllUserV2 rs (upsertUserV2 r l) = writeAll userKey rs (upsertBy userKey r l)
    rw [upsertUserV2_eq (hr r (by simp)) hl]
    refine ih (fun u hu => hr u (by simp [hu])) ?_
    intro y hy
    rcases mem_upsertBy hy with h | h
    · exact h ▸ hr r (by simp)
    · exact hl y h

theorem writeAllUserV2_idem_nil {us : List UserRow}
    (hp : ∀ u ∈ us, u.kid = .null ∧ u.stove_lv_content = .null) :
    writeAllUserV2 us (writeAllUserV2 us []) = writeAllUserV2 us [] := by
  have h0 : writeAllUserV2 us [] = writeAll userKey us [] :=
    writeAllUserV2_eq hp (by simp)
  have h1 : ∀ y ∈ writeAll userKey us [],
      y.kid = .null ∧ y.stove_lv_content = .null := by
    intro y hy
    rcases mem_writeAll hy with h | h
    · simp at h
    · exact hp y h
  rw [h0, writeAllUserV2_eq hp h1, writeAll_writeAll]

theorem v2PlansMB_users {aid : Int} {f : V2File} {p : V2Plan}
    (h : v2PlansMB aid f = .ok p) :
    ∀ u ∈ p.users, u.kid = .null ∧ u.stove_lv_content = .null := by
  unfold v2PlansMB at h
  cases hu : f.users with
  | none => rw [hu] at h; simp [getUsersV2, Bind.bind, Except.bind] at h
  | some ut =>
    rw [hu] at h
    simp only [getUsersV2, Bind.bind, Except.bind] at h
    cases hg : f.gift_codes with
    | none => rw [hg] at h; simp [getTable, Bind.bind, Except.bind] at h
    | some gt =>
      rw [hg] at h
      simp only [getTable, Bind.bind, Except.bind] at h
      cases hm : mapRows giftCodeRowV2 gt.rows with
      | error e => rw [hm] at h; simp [Bind.bind, Except.bind] at h
      | ok gs =>
        rw [hm] at h
        simp only [Bind.bind, Except.bind] at h
        cases hut : f.user_giftcodes with
        | none => rw [hut] at h; simp [getTable, Bind.bind, Except.bind] at h
        | some utt =>
          rw [hut] at h
          simp only [getTable, Bind.bind, Except.bind] at h
          cases hmu : mapRows userGiftCodeRowOf utt.rows with
          | error e => rw [hmu] at h; simp [Bind.bind, Except.bind] at h
          | ok ugs =>
            rw [hmu] at h
            simp only [Bind.bind, Except.bind, pure, Except.pure,
              Except.ok.injEq] at h
            intro u hup
            rw [← h] at hup
            simp only at hup
            rcases List.mem_map.1 hup with ⟨x, _, rfl⟩
            exact ⟨rfl, rfl⟩

theorem migrate_v2_idem (aid : Int) (src : Option V2File) :
    MigrationButton.migrate_v2 aid src
        (MigrationButton.migrate_v2 aid src emptyState).state
      = MigrationButton.migrate_v2 aid src emptyState := by
  rcases src with _ | f
  · rfl
  · rcases hp : v2PlansMB aid f with e | p
    · simp [MigrationButton.migrate_v2, hp]
    · have hu := v2PlansMB_users hp
      simp [MigrationButton.migrate_v2, hp, v2Apply, emptyState,
        writeAll_writeAll, writeAllUserV2_idem_nil hu]

theorem migrate_v3_idem (src : Option V3Dir) :
    MigrationButton.migrate_v3 src
        (MigrationButton.migrate_v3 src emptyState).state
      = MigrationButton.migrate_v3 src emptyState := by
  rcases src with _ | d
  · rfl
  · rcases hp : v3Plans d with e | p
    · simp [MigrationButton.migrate_v3, hp]
    · simp [MigrationButton.migrate_v3, hp, v3Apply_idem]

theorem migrate_v4_idem (d : V4Dir) (t1 t2 : Nat)
    (h : timestampsComplete d = true) :
    MigrationButton.migrate_v4 (some d)
        (MigrationButton.migrate_v4 (some d) emptyState t1).state t2
      = MigrationButton.migrate_v4 (some d) emptyState t1 := by
  have ht := v4Plans_time d t2 t1 h
  rcases hp : v4Plans d t1 with e | p
  · simp [MigrationButton.migrate_v4, ht, hp, rollbackSucceeds, emptyState]
  · simp [MigrationButton.migrate_v4, ht, hp, v4Apply_idem]

/-- A v4 source with one bear notification lacking `sent_at`: its migrated
`sent_at` is `datetime.now()`, so a second run at a later time rewrites it. -/
def bearNowDir : V4Dir := bearDirOf ⟨[], [[.int 1, .int 7, .int 100]]⟩ tEmpty

/-- Counterexample for C2: running `migrate_v4` twice over the same source
yields a different destination state after the second run when the source
lacks a timestamp — the `sent_at` defaulted to `datetime.now()` takes the
second run's time. -/
theorem migrate_v4_twice_differs :
    (MigrationButton.migrate_v4 (some bearNowDir)
        (MigrationButton.migrate_v4 (some bearNowDir) emptyState 0).state 1).state
      ≠ (MigrationButton.migrate_v4 (some bearNowDir) emptyState 0).state := by
  decide

/-- C2 (amended): migrating the same source twice into a freshly-initialized
destination yields the identical run result over the data columns (same
success, same messages, same embedded state — hence same row counts and
data-column values) for v2 and v3, and for v4 whenever no timestamp column
is absent or falsy in the bear/backup tables (otherwise the fields
defaulted to `datetime.now()` differ between runs); every row-level write
is an upsert keyed by the natural/composite key.  Full rows are NOT
identical across runs: `BaseModel.save` stamps `updated_at` with the write
time on every insert and update alike, so each row the second run rewrites
takes the second run's time — the timed upsert is idempotent in the data
columns only (last two conjuncts). -/
theorem migrations_idempotent :
    (∀ (aid : Int) (src : Option V2File),
      MigrationButton.migrate_v2 aid src
          (MigrationButton.migrate_v2 aid src emptyState).state
        = MigrationButton.migrate_v2 aid src emptyState) ∧
    (∀ src : Option V3Dir,
      MigrationButton.migrate_v3 src
          (MigrationButton.migrate_v3 src emptyState).state
        = MigrationButton.migrate_v3 src emptyState) ∧
    (∀ (d : V4Dir) (t1 t2 : Nat), timestampsComplete d = true →
      MigrationButton.migrate_v4 (some d)
          (MigrationButton.migrate_v4 (some d) emptyState t1).state t2
        = MigrationButton.migrate_v4 (some d) emptyState t1) ∧
    (∀ (u : UserRow) (t1 t2 : Nat), t1 ≠ t2 →
      User.create_or_update_timed t2 u (User.create_or_update_timed t1 u [])
        ≠ User.create_or_update_timed t1 u []) ∧
    (∀ (u : UserRow) (t1 t2 : Nat),
      (User.create_or_update_timed t2 u
          (User.create_or_update_timed t1 u [])).map Timed.data
        = (User.create_or_update_timed t1 u []).map Timed.data) := by
  refine ⟨migrate_v2_idem, migrate_v3_idem, migrate_v4_idem, ?_, ?_⟩
  · intro u t1 t2 hne
    simp [User.create_or_update_timed, upsertBy, userKey, Ne.symm hne]
  · intro u t1 t2
    simp [User.create_or_update_timed, upsertBy, userKey]

/-- Witness for C2: a v4 source whose bear notification carries a truthy
`sent_at` string is idempotent across runs at times 0 and 1; re-upserting
a user row at time 1 over its time-0 write keeps the data columns but not
the timed row. -/
theorem migrations_idempotent_witness :
    timestampsComplete (bearDirOf
        ⟨[], [[.int 1, .int 7, .int 100, .text "2024-01-02 00:00:00"]]⟩ tEmpty) = true ∧
    MigrationButton.migrate_v4 (some (bearDirOf
        ⟨[], [[.int 1, .int 7, .int 100, .text "2024-01-02 00:00:00"]]⟩ tEmpty))
        (MigrationButton.migrate_v4 (some (bearDirOf
          ⟨[], [[.int 1, .int 7, .int 100, .text "2024-01-02 00:00:00"]]⟩ tEmpty))
          emptyState 0).state 1
      = MigrationButton.migrate_v4 (some (bearDirOf
          ⟨[], [[.int 1, .int 7, .int 100, .text "2024-01-02 00:00:00"]]⟩ tEmpty))
          emptyState 0 ∧
    User.create_or_update_timed 1 uRow9 (User.create_or_update_timed 0 uRow9 [])
      ≠ User.create_or_update_timed 0 uRow9 [] ∧
    (User.create_or_update_timed 1 uRow9
        (User.create_or_update_timed 0 uRow9 [])).map Timed.data
      = (User.create_or_update_timed 0 uRow9 []).map Timed.data :=
  ⟨by decide, migrations_idempotent.2.2.1 (bearDirOf
      ⟨[], [[.int 1, .int 7, .int 100, .text "2024-01-02 00:00:00"]]⟩ tEmpty)
      0 1 (by decide),
   migrations_idempotent.2.2.2.1 uRow9 0 1 (by decide),
   migrations_idempotent.2.2.2.2 uRow9 0 1⟩
